import Mathlib

/-!
Launch template registry of the EC2 mock.

A shallow embedding of `cloudmock/aws/mockec2/launch_templates.go`.

Modelling conventions.

* A Go pointer to a scalar or to a struct (`*string`, `*bool`, `*int64`,
  `*ec2.LaunchTemplatesMonitoringRequest`, ...) is an `Option`; `nil` is `none`.
* A Go slice is a `List`; the `nil` slice and the empty slice are both `[]`
  (the source only takes `len` of a slice, ranges over it and appends to it).
  Slice elements are taken to be non-nil.
* The Go map `map[string]*launchTemplateInfo` is a Mathlib `AList` (an
  association list whose keys are pairwise distinct); a `nil` map is `none`.
  `range` over the map visits the entries in the order of the association
  list; every statement below holds for every such order. Map values are
  taken to be non-nil.
* A call has one of three outcomes: it returns a value and a `nil` error, it
  returns an error, or it stops on a nil dereference (a run-time panic). The
  outcome `panic` carries no registry; `registryAfterPanic` is the registry a
  caller that recovers from the panic finds.
* The mutex is not modelled: every operation holds it from entry to return,
  so operations are atomic state transformers.
* The request argument itself is taken to be non-nil.
-/

namespace mockec2

/-! ## SDK helpers -/

/-- The SDK helper `aws.StringValue`: the empty string for `nil`. -/
def StringValue (p : Option String) : String :=
  match p with
  | none => ""
  | some s => s

/-- The SDK constant `ec2.ResourceTypeLaunchTemplate`. -/
def ResourceTypeLaunchTemplate : String := "launch-template"

/-- Stands for `time.Time`, which the source only copies. -/
abbrev Time := Int

/-! ## SDK shapes (the fields the source reads or writes) -/

structure Tag where
  Key : Option String := none
  Value : Option String := none
deriving DecidableEq, Repr

structure TagSpecification where
  ResourceType : Option String := none
  Tags : List Tag := []
deriving DecidableEq, Repr

structure PrivateIpAddressSpecification where
  Primary : Option Bool := none
  PrivateIpAddress : Option String := none
deriving DecidableEq, Repr

/-! ### Request side -/

structure LaunchTemplatesMonitoringRequest where
  Enabled : Option Bool := none
deriving DecidableEq, Repr

structure LaunchTemplateCpuOptionsRequest where
  CoreCount : Option Int := none
  ThreadsPerCore : Option Int := none
deriving DecidableEq, Repr

structure LaunchTemplateEbsBlockDeviceRequest where
  DeleteOnTermination : Option Bool := none
  Encrypted : Option Bool := none
  Iops : Option Int := none
  KmsKeyId : Option String := none
  SnapshotId : Option String := none
  VolumeSize : Option Int := none
  VolumeType : Option String := none
deriving DecidableEq, Repr

structure LaunchTemplateBlockDeviceMappingRequest where
  DeviceName : Option String := none
  Ebs : Option LaunchTemplateEbsBlockDeviceRequest := none
  NoDevice : Option String := none
  VirtualName : Option String := none
deriving DecidableEq, Repr

structure CreditSpecificationRequest where
  CpuCredits : Option String := none
deriving DecidableEq, Repr

structure LaunchTemplateIamInstanceProfileSpecificationRequest where
  Arn : Option String := none
  Name : Option String := none
deriving DecidableEq, Repr

structure LaunchTemplateSpotMarketOptionsRequest where
  BlockDurationMinutes : Option Int := none
  InstanceInterruptionBehavior : Option String := none
  MaxPrice : Option String := none
  SpotInstanceType : Option String := none
  ValidUntil : Option Time := none
deriving DecidableEq, Repr

structure LaunchTemplateInstanceMarketOptionsRequest where
  MarketType : Option String := none
  SpotOptions : Option LaunchTemplateSpotMarketOptionsRequest := none
deriving DecidableEq, Repr

structure LaunchTemplateInstanceNetworkInterfaceSpecificationRequest where
  AssociatePublicIpAddress : Option Bool := none
  DeleteOnTermination : Option Bool := none
  Description : Option String := none
  DeviceIndex : Option Int := none
  Groups : List String := []
  Ipv6AddressCount : Option Int := none
  NetworkInterfaceId : Option String := none
  PrivateIpAddress : Option String := none
  PrivateIpAddresses : List PrivateIpAddressSpecification := []
  SecondaryPrivateIpAddressCount : Option Int := none
  SubnetId : Option String := none
deriving DecidableEq, Repr

structure LaunchTemplateTagSpecificationRequest where
  ResourceType : Option String := none
  Tags : List Tag := []
deriving DecidableEq, Repr

structure RequestLaunchTemplateData where
  BlockDeviceMappings : List LaunchTemplateBlockDeviceMappingRequest := []
  CpuOptions : Option LaunchTemplateCpuOptionsRequest := none
  CreditSpecification : Option CreditSpecificationRequest := none
  DisableApiTermination : Option Bool := none
  EbsOptimized : Option Bool := none
  IamInstanceProfile : Option LaunchTemplateIamInstanceProfileSpecificationRequest := none
  ImageId : Option String := none
  InstanceMarketOptions : Option LaunchTemplateInstanceMarketOptionsRequest := none
  InstanceType : Option String := none
  KeyName : Option String := none
  Monitoring : Option LaunchTemplatesMonitoringRequest := none
  NetworkInterfaces : List LaunchTemplateInstanceNetworkInterfaceSpecificationRequest := []
  SecurityGroupIds : List String := []
  SecurityGroups : List String := []
  TagSpecifications : List LaunchTemplateTagSpecificationRequest := []
  UserData : Option String := none
deriving DecidableEq, Repr

/-! ### Response side -/

structure LaunchTemplatesMonitoring where
  Enabled : Option Bool := none
deriving DecidableEq, Repr

structure LaunchTemplateCpuOptions where
  CoreCount : Option Int := none
  ThreadsPerCore : Option Int := none
deriving DecidableEq, Repr

structure LaunchTemplateEbsBlockDevice where
  DeleteOnTermination : Option Bool := none
  Encrypted : Option Bool := none
  Iops : Option Int := none
  KmsKeyId : Option String := none
  SnapshotId : Option String := none
  VolumeSize : Option Int := none
  VolumeType : Option String := none
deriving DecidableEq, Repr

structure LaunchTemplateBlockDeviceMapping where
  DeviceName : Option String := none
  Ebs : Option LaunchTemplateEbsBlockDevice := none
  NoDevice : Option String := none
  VirtualName : Option String := none
deriving DecidableEq, Repr

structure CreditSpecification where
  CpuCredits : Option String := none
deriving DecidableEq, Repr

structure LaunchTemplateIamInstanceProfileSpecification where
  Arn : Option String := none
  Name : Option String := none
deriving DecidableEq, Repr

structure LaunchTemplateSpotMarketOptions where
  BlockDurationMinutes : Option Int := none
  InstanceInterruptionBehavior : Option String := none
  MaxPrice : Option String := none
  SpotInstanceType : Option String := none
  ValidUntil : Option Time := none
deriving DecidableEq, Repr

structure LaunchTemplateInstanceMarketOptions where
  MarketType : Option String := none
  SpotOptions : Option LaunchTemplateSpotMarketOptions := none
deriving DecidableEq, Repr

structure LaunchTemplateInstanceNetworkInterfaceSpecification where
  AssociatePublicIpAddress : Option Bool := none
  DeleteOnTermination : Option Bool := none
  Description : Option String := none
  DeviceIndex : Option Int := none
  Groups : List String := []
  Ipv6AddressCount : Option Int := none
  NetworkInterfaceId : Option String := none
  PrivateIpAddress : Option String := none
  PrivateIpAddresses : List PrivateIpAddressSpecification := []
  SecondaryPrivateIpAddressCount : Option Int := none
  SubnetId : Option String := none
deriving DecidableEq, Repr

structure LaunchTemplateTagSpecification where
  ResourceType : Option String := none
  Tags : List Tag := []
deriving DecidableEq, Repr

structure ResponseLaunchTemplateData where
  BlockDeviceMappings : List LaunchTemplateBlockDeviceMapping := []
  CpuOptions : Option LaunchTemplateCpuOptions := none
  CreditSpecification : Option CreditSpecification := none
  DisableApiTermination : Option Bool := none
  EbsOptimized : Option Bool := none
  IamInstanceProfile : Option LaunchTemplateIamInstanceProfileSpecification := none
  ImageId : Option String := none
  InstanceMarketOptions : Option LaunchTemplateInstanceMarketOptions := none
  InstanceType : Option String := none
  KeyName : Option String := none
  Monitoring : Option LaunchTemplatesMonitoring := none
  NetworkInterfaces : List LaunchTemplateInstanceNetworkInterfaceSpecification := []
  SecurityGroupIds : List String := []
  SecurityGroups : List String := []
  TagSpecifications : List LaunchTemplateTagSpecification := []
  UserData : Option String := none
deriving DecidableEq, Repr

/-! ### Inputs and outputs of the four operations -/

/-- The shape `ec2.LaunchTemplate`, an entry of a `DescribeLaunchTemplates` answer. -/
structure LaunchTemplate where
  CreateTime : Option Time := none
  CreatedBy : Option String := none
  DefaultVersionNumber : Option Int := none
  LatestVersionNumber : Option Int := none
  LaunchTemplateId : Option String := none
  LaunchTemplateName : Option String := none
  Tags : List Tag := []
deriving DecidableEq, Repr

/-- The shape `ec2.LaunchTemplateVersion`. -/
structure LaunchTemplateVersion where
  CreateTime : Option Time := none
  CreatedBy : Option String := none
  DefaultVersion : Option Bool := none
  LaunchTemplateData : Option ResponseLaunchTemplateData := none
  LaunchTemplateId : Option String := none
  LaunchTemplateName : Option String := none
  VersionDescription : Option String := none
  VersionNumber : Option Int := none
deriving DecidableEq, Repr

/-- The request of `DescribeLaunchTemplates`; the source reads none of its fields. -/
structure DescribeLaunchTemplatesInput where
  LaunchTemplateIds : List String := []
  LaunchTemplateNames : List String := []
deriving DecidableEq, Repr

structure DescribeLaunchTemplatesOutput where
  LaunchTemplates : List LaunchTemplate := []
  NextToken : Option String := none
deriving DecidableEq, Repr

/-- The request of `DescribeLaunchTemplateVersions`; the source reads only the name. -/
structure DescribeLaunchTemplateVersionsInput where
  LaunchTemplateId : Option String := none
  LaunchTemplateName : Option String := none
deriving DecidableEq, Repr

structure DescribeLaunchTemplateVersionsOutput where
  LaunchTemplateVersions : List LaunchTemplateVersion := []
  NextToken : Option String := none
deriving DecidableEq, Repr

structure CreateLaunchTemplateInput where
  LaunchTemplateData : Option RequestLaunchTemplateData := none
  LaunchTemplateName : Option String := none
  TagSpecifications : List TagSpecification := []
deriving DecidableEq, Repr

structure CreateLaunchTemplateOutput where
  LaunchTemplate : Option LaunchTemplate := none
deriving DecidableEq, Repr

/-- The request of `DeleteLaunchTemplate`; the source reads only the name. -/
structure DeleteLaunchTemplateInput where
  LaunchTemplateId : Option String := none
  LaunchTemplateName : Option String := none
deriving DecidableEq, Repr

structure DeleteLaunchTemplateOutput where
  LaunchTemplate : Option LaunchTemplate := none
deriving DecidableEq, Repr

/-! ## Registry state -/

/-- The record type `launchTemplateInfo` (source lines 26-29). -/
structure launchTemplateInfo where
  data : Option ResponseLaunchTemplateData
  name : Option String
deriving DecidableEq, Repr

/-- The Go type `map[string]*launchTemplateInfo`. -/
abbrev LaunchTemplateMap := AList (fun _ : String => launchTemplateInfo)

/-- Modelled from the spec: the struct `MockEC2` is declared in another file of
the package. The three parts the launch template operations touch are the
record map `LaunchTemplates` (`none` is the never-initialised `nil` map), the
identifier counter `launchTemplateNumber` (a counter that only ever grows,
taken as an unbounded natural number), and the Tag Binder, kept as the log of
the `addTags` calls made so far (resource identifier and tags of each call,
oldest first). -/
structure MockEC2 where
  LaunchTemplates : Option LaunchTemplateMap := none
  launchTemplateNumber : Nat := 0
  addTagsCalls : List (String × List Tag) := []
deriving DecidableEq

/-- Modelled from the spec: the Tag Binder `addTags(resourceId, tags...)`, whose
body is in another file of the package; one call is recorded per invocation. -/
def MockEC2.addTags (m : MockEC2) (resourceId : String) (tags : List Tag) : MockEC2 :=
  { m with addTagsCalls := m.addTagsCalls ++ [(resourceId, tags)] }

/-- Modelled from the spec: `tagSpecificationsToTags`, whose body is in another
file of the package: all tags of the specifications whose resource type is
the given one, in order. -/
def tagSpecificationsToTags (specifications : List TagSpecification) (resourceType : String) :
    List Tag :=
  (specifications.filter (fun s => StringValue s.ResourceType = resourceType)).flatMap
    (fun s => s.Tags)

/-- Outcome of a call: `ok` is a return with a `nil` error, `error` a return
with a non-nil error (both with the registry as the call left it), `panic` a
nil dereference. -/
inductive Result (α : Type) where
  | ok (m : MockEC2) (o : α)
  | error (m : MockEC2) (msg : String)
  | panic
deriving DecidableEq

/-! ## The schema translator (source lines 91-182) -/

/-- Source lines 91-100: the response payload with the eight directly copied fields. -/
def newResponseData (d : RequestLaunchTemplateData) : ResponseLaunchTemplateData :=
  { DisableApiTermination := d.DisableApiTermination
    EbsOptimized := d.EbsOptimized
    ImageId := d.ImageId
    InstanceType := d.InstanceType
    KeyName := d.KeyName
    SecurityGroupIds := d.SecurityGroupIds
    SecurityGroups := d.SecurityGroups
    UserData := d.UserData }

/-- Source lines 106-108. -/
def setMonitoring (d : RequestLaunchTemplateData) (resp : ResponseLaunchTemplateData) :
    ResponseLaunchTemplateData :=
  match d.Monitoring with
  | some x => { resp with Monitoring := some { Enabled := x.Enabled } }
  | none => resp

/-- Source lines 109-114. -/
def setCpuOptions (d : RequestLaunchTemplateData) (resp : ResponseLaunchTemplateData) :
    ResponseLaunchTemplateData :=
  match d.CpuOptions with
  | some x =>
    { resp with CpuOptions := some { CoreCount := x.CoreCount, ThreadsPerCore := x.ThreadsPerCore } }
  | none => resp

/-- Source lines 117-128: the `ebs` variable of one loop round. -/
def ebsOf (x : LaunchTemplateBlockDeviceMappingRequest) : Option LaunchTemplateEbsBlockDevice :=
  match x.Ebs with
  | some e =>
    some { DeleteOnTermination := e.DeleteOnTermination
           Encrypted := e.Encrypted
           Iops := e.Iops
           KmsKeyId := e.KmsKeyId
           SnapshotId := e.SnapshotId
           VolumeSize := e.VolumeSize
           VolumeType := e.VolumeType }
  | none => none

/-- Source lines 115-136: one `append` per element of the request list. -/
def appendBlockDeviceMappings (d : RequestLaunchTemplateData) (resp : ResponseLaunchTemplateData) :
    ResponseLaunchTemplateData :=
  if d.BlockDeviceMappings.length > 0 then
    d.BlockDeviceMappings.foldl
      (fun r x =>
        { r with BlockDeviceMappings := r.BlockDeviceMappings ++
            [{ DeviceName := x.DeviceName
               Ebs := ebsOf x
               NoDevice := x.NoDevice
               VirtualName := x.VirtualName }] })
      resp
  else resp

/-- Source lines 137-139. -/
def setCreditSpecification (d : RequestLaunchTemplateData) (resp : ResponseLaunchTemplateData) :
    ResponseLaunchTemplateData :=
  match d.CreditSpecification with
  | some x => { resp with CreditSpecification := some { CpuCredits := x.CpuCredits } }
  | none => resp

/-- Source lines 140-145. -/
def setIamInstanceProfile (d : RequestLaunchTemplateData) (resp : ResponseLaunchTemplateData) :
    ResponseLaunchTemplateData :=
  match d.IamInstanceProfile with
  | some x => { resp with IamInstanceProfile := some { Arn := x.Arn, Name := x.Name } }
  | none => resp

/-- Source lines 146-157. The nested `SpotOptions` pointer is dereferenced
without a nil check: `none` is the resulting panic. -/
def setInstanceMarketOptions (d : RequestLaunchTemplateData) (resp : ResponseLaunchTemplateData) :
    Option ResponseLaunchTemplateData :=
  match d.InstanceMarketOptions with
  | some x =>
    match x.SpotOptions with
    | some s =>
      let spot : LaunchTemplateSpotMarketOptions :=
        { BlockDurationMinutes := s.BlockDurationMinutes
          InstanceInterruptionBehavior := s.InstanceInterruptionBehavior
          MaxPrice := s.MaxPrice
          SpotInstanceType := s.SpotInstanceType
          ValidUntil := s.ValidUntil }
      let imo : LaunchTemplateInstanceMarketOptions :=
        { MarketType := x.MarketType, SpotOptions := some spot }
      some { resp with InstanceMarketOptions := some imo }
    | none => none
  | none => some resp

/-- Source lines 158-174. -/
def appendNetworkInterfaces (d : RequestLaunchTemplateData) (resp : ResponseLaunchTemplateData) :
    ResponseLaunchTemplateData :=
  if d.NetworkInterfaces.length > 0 then
    d.NetworkInterfaces.foldl
      (fun r x =>
        { r with NetworkInterfaces := r.NetworkInterfaces ++
            [{ AssociatePublicIpAddress := x.AssociatePublicIpAddress
               DeleteOnTermination := x.DeleteOnTermination
               Description := x.Description
               DeviceIndex := x.DeviceIndex
               Groups := x.Groups
               Ipv6AddressCount := x.Ipv6AddressCount
               NetworkInterfaceId := x.NetworkInterfaceId
               PrivateIpAddress := x.PrivateIpAddress
               PrivateIpAddresses := x.PrivateIpAddresses
               SecondaryPrivateIpAddressCount := x.SecondaryPrivateIpAddressCount
               SubnetId := x.SubnetId }] })
      resp
  else resp

/-- Source lines 175-182. -/
def appendTagSpecifications (d : RequestLaunchTemplateData) (resp : ResponseLaunchTemplateData) :
    ResponseLaunchTemplateData :=
  if d.TagSpecifications.length > 0 then
    d.TagSpecifications.foldl
      (fun r x =>
        { r with TagSpecifications := r.TagSpecifications ++
            [{ ResourceType := x.ResourceType, Tags := x.Tags }] })
      resp
  else resp

/-- Source lines 91-182 in order: the payload built from the request data, or
`none` when the walk stops on the nil `SpotOptions`. -/
def buildResponseData (d : RequestLaunchTemplateData) : Option ResponseLaunchTemplateData :=
  match setInstanceMarketOptions d
      (setIamInstanceProfile d (setCreditSpecification d (appendBlockDeviceMappings d
        (setCpuOptions d (setMonitoring d (newResponseData d)))))) with
  | some resp => some (appendTagSpecifications d (appendNetworkInterfaces d resp))
  | none => none

/-! ## The four operations -/

/-- Source lines 81-83: the identifier for counter value `n`, `fmt.Sprintf("lt-%d", n)`. -/
def launchTemplateId (n : Nat) : String := "lt-" ++ toString n

/-- Source line 89: the error text for identifier `id`. -/
def duplicateError (id : String) : String := "duplicate LaunchTemplateName " ++ id

/-- The map after source lines 85-87: a `nil` map is replaced by an empty one. -/
def MockEC2.ensureMap (m : MockEC2) : LaunchTemplateMap :=
  match m.LaunchTemplates with
  | some lts => lts
  | none => ∅

/-- `DescribeLaunchTemplates` (source lines 32-49). -/
def DescribeLaunchTemplates (m : MockEC2) (_request : DescribeLaunchTemplatesInput) :
    Result DescribeLaunchTemplatesOutput :=
  match m.LaunchTemplates with
  | none => .ok m {}
  | some lts =>
    .ok m (lts.entries.foldl
      (fun (o : DescribeLaunchTemplatesOutput) e =>
        { o with LaunchTemplates := o.LaunchTemplates ++ [{ LaunchTemplateName := e.2.name }] })
      {})

/-- `DescribeLaunchTemplateVersions` (source lines 52-74). -/
def DescribeLaunchTemplateVersions (m : MockEC2) (request : DescribeLaunchTemplateVersionsInput) :
    Result DescribeLaunchTemplateVersionsOutput :=
  match m.LaunchTemplates with
  | none => .ok m {}
  | some lts =>
    .ok m (lts.entries.foldl
      (fun (o : DescribeLaunchTemplateVersionsOutput) e =>
        if StringValue e.2.name ≠ StringValue request.LaunchTemplateName then o
        else
          { o with LaunchTemplateVersions := o.LaunchTemplateVersions ++
              [{ DefaultVersion := some true
                 LaunchTemplateId := some e.1
                 LaunchTemplateData := e.2.data
                 LaunchTemplateName := request.LaunchTemplateName }] })
      {})

/-- `CreateLaunchTemplate` (source lines 77-186). The record is put in the map
at lines 101-104 through a pointer and completed afterwards; on the returning
path the map therefore holds the completed payload. -/
def CreateLaunchTemplate (m : MockEC2) (request : CreateLaunchTemplateInput) :
    Result CreateLaunchTemplateOutput :=
  let n := m.launchTemplateNumber + 1
  let id := launchTemplateId n
  let lts := m.ensureMap
  let m1 : MockEC2 := { m with launchTemplateNumber := n, LaunchTemplates := some lts }
  if (lts.lookup id).isSome then
    .error m1 (duplicateError id)
  else
    match request.LaunchTemplateData with
    | none => .panic
    | some d =>
      match buildResponseData d with
      | none => .panic
      | some resp =>
        let info : launchTemplateInfo := { data := some resp, name := request.LaunchTemplateName }
        let m2 : MockEC2 := { m1 with LaunchTemplates := some (lts.insert id info) }
        .ok (m2.addTags id
              (tagSpecificationsToTags request.TagSpecifications ResourceTypeLaunchTemplate))
            {}

/-- `DeleteLaunchTemplate` (source lines 189-205): the loop visits every entry
of the map and deletes the visited key when the names agree. -/
def DeleteLaunchTemplate (m : MockEC2) (request : DeleteLaunchTemplateInput) :
    Result DeleteLaunchTemplateOutput :=
  match m.LaunchTemplates with
  | none => .ok m {}
  | some lts =>
    let lts1 : LaunchTemplateMap := lts.entries.foldl
      (fun (acc : LaunchTemplateMap) e =>
        if StringValue e.2.name = StringValue request.LaunchTemplateName then acc.erase e.1
        else acc)
      lts
    .ok { m with LaunchTemplates := some lts1 } {}

/-! ## Observations and call sequences -/

/-- The Go expression `m.LaunchTemplates[id]`: the record stored under `id`,
`none` when there is none (also for a `nil` map). -/
def MockEC2.record (m : MockEC2) (id : String) : Option launchTemplateInfo :=
  match m.LaunchTemplates with
  | none => none
  | some lts => lts.lookup id

/-- The stored records with their identifiers, in map order; none for a `nil` map. -/
def MockEC2.records (m : MockEC2) : List (Sigma (fun _ : String => launchTemplateInfo)) :=
  match m.LaunchTemplates with
  | none => []
  | some lts => lts.entries

/-- The zero value of the registry: `nil` map, counter zero, no tag bound. -/
def fresh : MockEC2 := {}

/-- The registry a call leaves behind, `none` after a panic. -/
def Result.registry {α : Type} : Result α → Option MockEC2
  | .ok m _ => some m
  | .error m _ => some m
  | .panic => none

/-- One call of one of the four operations. -/
inductive Call where
  | create (request : CreateLaunchTemplateInput)
  | describe (request : DescribeLaunchTemplatesInput)
  | describeVersions (request : DescribeLaunchTemplateVersionsInput)
  | delete (request : DeleteLaunchTemplateInput)

/-- The registry after one call. -/
def step (m : MockEC2) : Call → Option MockEC2
  | .create r => (CreateLaunchTemplate m r).registry
  | .describe r => (DescribeLaunchTemplates m r).registry
  | .describeVersions r => (DescribeLaunchTemplateVersions m r).registry
  | .delete r => (DeleteLaunchTemplate m r).registry

/-- The registry after a sequence of calls made one after the other; `none`
when one of them panics. -/
def run (m : MockEC2) : List Call → Option MockEC2
  | [] => some m
  | c :: cs =>
    match step m c with
    | some m1 => run m1 cs
    | none => none

/-- Source lines 91-145: the payload as it stands when the walk reaches the
`InstanceMarketOptions` block at line 146. -/
def responseDataBeforeMarketOptions (d : RequestLaunchTemplateData) :
    ResponseLaunchTemplateData :=
  setIamInstanceProfile d (setCreditSpecification d (appendBlockDeviceMappings d
    (setCpuOptions d (setMonitoring d (newResponseData d)))))

/-- The registry a create call leaves behind when it stops on a nil
dereference and the caller recovers. The counter has advanced (line 81) and
the map exists (lines 85-87). A stop at line 92 (no `LaunchTemplateData`) has
stored nothing; a stop at line 150 (no `SpotOptions`) has stored, at line 101,
the record whose payload was filled up to line 145. `addTags` (line 183) was
not reached. -/
def registryAfterPanic (m : MockEC2) (request : CreateLaunchTemplateInput) : MockEC2 :=
  let n := m.launchTemplateNumber + 1
  let id := launchTemplateId n
  let lts := m.ensureMap
  let m1 : MockEC2 := { m with launchTemplateNumber := n, LaunchTemplates := some lts }
  match request.LaunchTemplateData with
  | none => m1
  | some d =>
    let info : launchTemplateInfo :=
      { data := some (responseDataBeforeMarketOptions d), name := request.LaunchTemplateName }
    { m1 with LaunchTemplates := some (lts.insert id info) }

/-- The registry after one call, whatever its outcome: a panic of a create
call is recovered by the caller. -/
def stepRecovered (m : MockEC2) : Call → MockEC2
  | .create r =>
    match CreateLaunchTemplate m r with
    | .ok m1 _ => m1
    | .error m1 _ => m1
    | .panic => registryAfterPanic m r
  | .describe r =>
    match (DescribeLaunchTemplates m r).registry with
    | some m1 => m1
    | none => m
  | .describeVersions r =>
    match (DescribeLaunchTemplateVersions m r).registry with
    | some m1 => m1
    | none => m
  | .delete r =>
    match (DeleteLaunchTemplate m r).registry with
    | some m1 => m1
    | none => m

/-- The registry after a sequence of calls made one after the other, panics
being recovered. -/
def runRecovered (m : MockEC2) : List Call → MockEC2
  | [] => m
  | c :: cs => runRecovered (stepRecovered m c) cs

/-- One for a create call that returns without error, zero for any other call. -/
def returnedCreate (m : MockEC2) : Call → Nat
  | .create r =>
    match CreateLaunchTemplate m r with
    | .ok _ _ => 1
    | _ => 0
  | _ => 0

/-- The number of create calls of a sequence that return without error. -/
def createsReturned (m : MockEC2) : List Call → Nat
  | [] => 0
  | c :: cs => returnedCreate m c + createsReturned (stepRecovered m c) cs

/-- The identifiers are well numbered: every stored record and every `addTags`
call is under `lt-k` for some `k` between one and the counter, and no
identifier appears twice in the `addTags` log. -/
def WellNumbered (m : MockEC2) : Prop :=
  (∀ id, (m.record id).isSome = true →
    ∃ k, 1 ≤ k ∧ k ≤ m.launchTemplateNumber ∧ id = launchTemplateId k) ∧
  (∀ id ∈ m.addTagsCalls.map Prod.fst,
    ∃ k, 1 ≤ k ∧ k ≤ m.launchTemplateNumber ∧ id = launchTemplateId k) ∧
  (m.addTagsCalls.map Prod.fst).Nodup

/-- Whether a call is a `CreateLaunchTemplate` call. -/
def Call.isCreate : Call → Bool
  | .create _ => true
  | _ => false

/-- Whether a request name matches a record name (source lines 63 and 199). -/
def nameMatches (recordName requestName : Option String) : Bool :=
  StringValue recordName = StringValue requestName

/-- The translation table of the specification (section 4.1), written field
by field: scalar and list fields copied, an optional block copied when present,
a list translated entry by entry. -/
def translateSpec (d : RequestLaunchTemplateData) : ResponseLaunchTemplateData :=
  { DisableApiTermination := d.DisableApiTermination
    EbsOptimized := d.EbsOptimized
    ImageId := d.ImageId
    InstanceType := d.InstanceType
    KeyName := d.KeyName
    SecurityGroupIds := d.SecurityGroupIds
    SecurityGroups := d.SecurityGroups
    UserData := d.UserData
    Monitoring := d.Monitoring.map fun x => { Enabled := x.Enabled }
    CpuOptions := d.CpuOptions.map fun x =>
      { CoreCount := x.CoreCount, ThreadsPerCore := x.ThreadsPerCore }
    BlockDeviceMappings := d.BlockDeviceMappings.map fun x =>
      { DeviceName := x.DeviceName
        NoDevice := x.NoDevice
        VirtualName := x.VirtualName
        Ebs := x.Ebs.map fun e =>
          { DeleteOnTermination := e.DeleteOnTermination
            Encrypted := e.Encrypted
            Iops := e.Iops
            KmsKeyId := e.KmsKeyId
            SnapshotId := e.SnapshotId
            VolumeSize := e.VolumeSize
            VolumeType := e.VolumeType } }
    CreditSpecification := d.CreditSpecification.map fun x => { CpuCredits := x.CpuCredits }
    IamInstanceProfile := d.IamInstanceProfile.map fun x => { Arn := x.Arn, Name := x.Name }
    InstanceMarketOptions := d.InstanceMarketOptions.map fun x =>
      { MarketType := x.MarketType
        SpotOptions := x.SpotOptions.map fun s =>
          { BlockDurationMinutes := s.BlockDurationMinutes
            InstanceInterruptionBehavior := s.InstanceInterruptionBehavior
            MaxPrice := s.MaxPrice
            SpotInstanceType := s.SpotInstanceType
            ValidUntil := s.ValidUntil } }
    NetworkInterfaces := d.NetworkInterfaces.map fun x =>
      { AssociatePublicIpAddress := x.AssociatePublicIpAddress
        DeleteOnTermination := x.DeleteOnTermination
        Description := x.Description
        DeviceIndex := x.DeviceIndex
        Groups := x.Groups
        Ipv6AddressCount := x.Ipv6AddressCount
        NetworkInterfaceId := x.NetworkInterfaceId
        PrivateIpAddress := x.PrivateIpAddress
        PrivateIpAddresses := x.PrivateIpAddresses
        SecondaryPrivateIpAddressCount := x.SecondaryPrivateIpAddressCount
        SubnetId := x.SubnetId }
    TagSpecifications := d.TagSpecifications.map fun x =>
      { ResourceType := x.ResourceType, Tags := x.Tags } }

/-! ## Example requests and registries -/

/-- A create request named `lt-A` that sets scalar fields, every optional
block and one entry in each list. -/
def requestA : CreateLaunchTemplateInput :=
  { LaunchTemplateName := some "lt-A"
    LaunchTemplateData := some
      { ImageId := some "ami-1"
        InstanceType := some "t2.micro"
        SecurityGroupIds := ["sg-1"]
        Monitoring := some { Enabled := some true }
        CpuOptions := some { CoreCount := some 2, ThreadsPerCore := some 1 }
        CreditSpecification := some { CpuCredits := some "standard" }
        IamInstanceProfile := some { Name := some "nodes" }
        InstanceMarketOptions := some
          { MarketType := some "spot", SpotOptions := some { MaxPrice := some "0.5" } }
        BlockDeviceMappings :=
          [{ DeviceName := some "/dev/xvda", Ebs := some { VolumeSize := some 8 } },
           { DeviceName := some "/dev/xvdb" }]
        NetworkInterfaces := [{ DeviceIndex := some 0, Groups := ["sg-1"] }]
        TagSpecifications := [{ ResourceType := some "instance", Tags := [⟨some "k", some "v"⟩] }] }
    TagSpecifications :=
      [{ ResourceType := some "launch-template", Tags := [⟨some "owner", some "kops"⟩] }] }

/-- A create request with only an image and an instance type, named `shared`. -/
def requestShared : CreateLaunchTemplateInput :=
  { LaunchTemplateName := some "shared"
    LaunchTemplateData := some { ImageId := some "ami-1", InstanceType := some "t2.micro" } }

/-- A create request whose `InstanceMarketOptions` block is present and whose
nested `SpotOptions` is absent. -/
def requestNoSpotOptions : CreateLaunchTemplateInput :=
  { LaunchTemplateName := some "web"
    LaunchTemplateData := some { InstanceMarketOptions := some { MarketType := some "spot" } } }

/-- A registry whose map was filled directly: a record sits under `lt-1` while
the counter is still zero. -/
def registryFilledDirectly : MockEC2 :=
  { LaunchTemplates := some (AList.insert "lt-1" { data := none, name := some "old" } ∅) }

/-- A sequence that mixes the four operations: two creates, a delete of the
first record, a describe, and two more creates. -/
def mixedCalls : List Call :=
  [.create requestShared, .create requestA, .delete { LaunchTemplateName := some "shared" },
   .describe {}, .describeVersions { LaunchTemplateName := some "lt-A" },
   .create requestShared, .create requestA]

/-- The create request of the concrete scenario of the specification:
name `web`, image `ami-1`, instance type `t2.micro`. -/
def requestWeb : CreateLaunchTemplateInput :=
  { LaunchTemplateName := some "web"
    LaunchTemplateData := some { ImageId := some "ami-1", InstanceType := some "t2.micro" } }

/-- A map holding two records, `web` under `lt-1` and a record without a name
under `lt-2`. -/
def mapTwo : LaunchTemplateMap :=
  AList.insert "lt-2" { data := none, name := none }
    (AList.insert "lt-1" { data := some { ImageId := some "ami-1" }, name := some "web" } ∅)

/-- A registry holding the two records of `mapTwo`, with the counter at two. -/
def registryTwo : MockEC2 :=
  { LaunchTemplates := some mapTwo, launchTemplateNumber := 2 }

/-- The registry `registryTwo` with its two records visited in the other order. -/
def registryTwoSwapped : MockEC2 :=
  { LaunchTemplates := some
      (AList.insert "lt-1" { data := some { ImageId := some "ami-1" }, name := some "web" }
        (AList.insert "lt-2" { data := none, name := none } ∅))
    launchTemplateNumber := 2 }

/-- The launch-template-typed tags among the tag specifications stored in a
payload: the tags of the stored specifications whose resource type is the
given one, in order. -/
def payloadTagsOfType (specs : List LaunchTemplateTagSpecification) (resourceType : String) :
    List Tag :=
  (specs.filter (fun s => StringValue s.ResourceType = resourceType)).flatMap (fun s => s.Tags)

/-- Name matching in the words of the specification: a request name that is
absent or empty matches the records whose name is absent or empty; any other
request name matches the records whose name is that same string. -/
def specNameMatches (recordName requestName : Option String) : Prop :=
  if requestName = none ∨ requestName = some "" then
    recordName = none ∨ recordName = some ""
  else recordName = requestName

/-- A sequence with a create, a create that panics on the absent `SpotOptions`,
a delete of the first record and a describe. -/
def callsWithPanic : List Call :=
  [.create requestWeb, .create requestNoSpotOptions,
   .delete { LaunchTemplateName := some "web" }, .describe {}]

/-- The value of a decimal digit character. -/
def digitValue (c : Char) : Nat := c.toNat - 48

/-- The number a string of decimal digits denotes (reads back what `%d` prints). -/
def decimalValue (cs : List Char) : Nat := cs.foldl (fun a c => a * 10 + digitValue c) 0

/-! ## The schema translator: what the staged walk builds -/

theorem foldl_appendBlockDeviceMappings (g : LaunchTemplateBlockDeviceMappingRequest →
    LaunchTemplateBlockDeviceMapping) (l : List LaunchTemplateBlockDeviceMappingRequest)
    (resp : ResponseLaunchTemplateData) :
    l.foldl (fun r x => { r with BlockDeviceMappings := r.BlockDeviceMappings ++ [g x] }) resp =
      { resp with BlockDeviceMappings := resp.BlockDeviceMappings ++ l.map g } := by
  induction l generalizing resp with
  | nil => simp
  | cons x xs ih => simp [List.foldl, ih]

theorem foldl_appendNetworkInterfaces
    (g : LaunchTemplateInstanceNetworkInterfaceSpecificationRequest →
      LaunchTemplateInstanceNetworkInterfaceSpecification)
    (l : List LaunchTemplateInstanceNetworkInterfaceSpecificationRequest)
    (resp : ResponseLaunchTemplateData) :
    l.foldl (fun r x => { r with NetworkInterfaces := r.NetworkInterfaces ++ [g x] }) resp =
      { resp with NetworkInterfaces := resp.NetworkInterfaces ++ l.map g } := by
  induction l generalizing resp with
  | nil => simp
  | cons x xs ih => simp [List.foldl, ih]

theorem foldl_appendTagSpecifications
    (g : LaunchTemplateTagSpecificationRequest → LaunchTemplateTagSpecification)
    (l : List LaunchTemplateTagSpecificationRequest) (resp : ResponseLaunchTemplateData) :
    l.foldl (fun r x => { r with TagSpecifications := r.TagSpecifications ++ [g x] }) resp =
      { resp with TagSpecifications := resp.TagSpecifications ++ l.map g } := by
  induction l generalizing resp with
  | nil => simp
  | cons x xs ih => simp [List.foldl, ih]

theorem ebsOf_eq_map (x : LaunchTemplateBlockDeviceMappingRequest) :
    ebsOf x = x.Ebs.map fun e =>
      { DeleteOnTermination := e.DeleteOnTermination
        Encrypted := e.Encrypted
        Iops := e.Iops
        KmsKeyId := e.KmsKeyId
        SnapshotId := e.SnapshotId
        VolumeSize := e.VolumeSize
        VolumeType := e.VolumeType } := by
  unfold ebsOf
  cases x.Ebs <;> rfl

/-- The staged walk of the source stops exactly on a present
`InstanceMarketOptions` whose `SpotOptions` is absent. -/
theorem buildResponseData_eq_none_iff (d : RequestLaunchTemplateData) :
    buildResponseData d = none ↔
      ∃ x, d.InstanceMarketOptions = some x ∧ x.SpotOptions = none := by
  unfold buildResponseData setInstanceMarketOptions
  cases h : d.InstanceMarketOptions with
  | none => simp
  | some x =>
    cases hs : x.SpotOptions with
    | none => simp [hs]
    | some s => simp [hs]

theorem setMonitoring_eq (d : RequestLaunchTemplateData) (r : ResponseLaunchTemplateData) :
    setMonitoring d r = { r with Monitoring :=
        match d.Monitoring with
        | some x => some { Enabled := x.Enabled }
        | none => r.Monitoring } := by
  unfold setMonitoring
  cases d.Monitoring <;> rfl

theorem setCpuOptions_eq (d : RequestLaunchTemplateData) (r : ResponseLaunchTemplateData) :
    setCpuOptions d r = { r with CpuOptions :=
        match d.CpuOptions with
        | some x => some { CoreCount := x.CoreCount, ThreadsPerCore := x.ThreadsPerCore }
        | none => r.CpuOptions } := by
  unfold setCpuOptions
  cases d.CpuOptions <;> rfl

theorem setCreditSpecification_eq (d : RequestLaunchTemplateData)
    (r : ResponseLaunchTemplateData) :
    setCreditSpecification d r = { r with CreditSpecification :=
        match d.CreditSpecification with
        | some x => some { CpuCredits := x.CpuCredits }
        | none => r.CreditSpecification } := by
  unfold setCreditSpecification
  cases d.CreditSpecification <;> rfl

theorem setIamInstanceProfile_eq (d : RequestLaunchTemplateData)
    (r : ResponseLaunchTemplateData) :
    setIamInstanceProfile d r = { r with IamInstanceProfile :=
        match d.IamInstanceProfile with
        | some x => some { Arn := x.Arn, Name := x.Name }
        | none => r.IamInstanceProfile } := by
  unfold setIamInstanceProfile
  cases d.IamInstanceProfile <;> rfl

theorem appendBlockDeviceMappings_eq (d : RequestLaunchTemplateData)
    (r : ResponseLaunchTemplateData) :
    appendBlockDeviceMappings d r = { r with BlockDeviceMappings :=
        r.BlockDeviceMappings ++ d.BlockDeviceMappings.map fun x =>
          { DeviceName := x.DeviceName
            Ebs := ebsOf x
            NoDevice := x.NoDevice
            VirtualName := x.VirtualName } } := by
  unfold appendBlockDeviceMappings
  split
  · exact foldl_appendBlockDeviceMappings _ _ _
  · next h =>
    have h0 : d.BlockDeviceMappings = [] := List.length_eq_zero.mp (by omega)
    simp [h0]

theorem appendNetworkInterfaces_eq (d : RequestLaunchTemplateData)
    (r : ResponseLaunchTemplateData) :
    appendNetworkInterfaces d r = { r with NetworkInterfaces :=
        r.NetworkInterfaces ++ d.NetworkInterfaces.map fun x =>
          { AssociatePublicIpAddress := x.AssociatePublicIpAddress
            DeleteOnTermination := x.DeleteOnTermination
            Description := x.Description
            DeviceIndex := x.DeviceIndex
            Groups := x.Groups
            Ipv6AddressCount := x.Ipv6AddressCount
            NetworkInterfaceId := x.NetworkInterfaceId
            PrivateIpAddress := x.PrivateIpAddress
            PrivateIpAddresses := x.PrivateIpAddresses
            SecondaryPrivateIpAddressCount := x.SecondaryPrivateIpAddressCount
            SubnetId := x.SubnetId } } := by
  unfold appendNetworkInterfaces
  split
  · exact foldl_appendNetworkInterfaces _ _ _
  · next h =>
    have h0 : d.NetworkInterfaces = [] := List.length_eq_zero.mp (by omega)
    simp [h0]

theorem appendTagSpecifications_eq (d : RequestLaunchTemplateData)
    (r : ResponseLaunchTemplateData) :
    appendTagSpecifications d r = { r with TagSpecifications :=
        r.TagSpecifications ++ d.TagSpecifications.map fun x =>
          { ResourceType := x.ResourceType, Tags := x.Tags } } := by
  unfold appendTagSpecifications
  split
  · exact foldl_appendTagSpecifications _ _ _
  · next h =>
    have h0 : d.TagSpecifications = [] := List.length_eq_zero.mp (by omega)
    simp [h0]

theorem setInstanceMarketOptions_eq_some (d : RequestLaunchTemplateData)
    (r r1 : ResponseLaunchTemplateData) (h : setInstanceMarketOptions d r = some r1) :
    r1 = { r with InstanceMarketOptions :=
        match d.InstanceMarketOptions with
        | some x => some
            { MarketType := x.MarketType
              SpotOptions := x.SpotOptions.map fun s =>
                { BlockDurationMinutes := s.BlockDurationMinutes
                  InstanceInterruptionBehavior := s.InstanceInterruptionBehavior
                  MaxPrice := s.MaxPrice
                  SpotInstanceType := s.SpotInstanceType
                  ValidUntil := s.ValidUntil } }
        | none => r.InstanceMarketOptions } := by
  unfold setInstanceMarketOptions at h
  cases hi : d.InstanceMarketOptions with
  | none =>
    simp only [hi, Option.some.injEq] at h
    exact h.symm
  | some x =>
    cases hs : x.SpotOptions with
    | none => simp [hi, hs] at h
    | some s =>
      simp only [hi, hs, Option.some.injEq] at h
      subst h
      simp [hs]

/-- When the staged walk of the source completes, its payload is the
translation of the specification's table. -/
theorem buildResponseData_eq_translateSpec (d : RequestLaunchTemplateData)
    (resp : ResponseLaunchTemplateData) (h : buildResponseData d = some resp) :
    resp = translateSpec d := by
  unfold buildResponseData at h
  split at h
  · next r1 h1 =>
    have h2 := setInstanceMarketOptions_eq_some _ _ _ h1
    simp only [Option.some.injEq] at h
    subst h
    subst h2
    simp only [newResponseData, setMonitoring_eq, setCpuOptions_eq,
      appendBlockDeviceMappings_eq, setCreditSpecification_eq, setIamInstanceProfile_eq,
      appendNetworkInterfaces_eq, appendTagSpecifications_eq, translateSpec, ebsOf_eq_map,
      List.nil_append]
    congr 1
    all_goals first
      | rfl
      | (cases d.Monitoring <;> rfl)
      | (cases d.CpuOptions <;> rfl)
      | (cases d.CreditSpecification <;> rfl)
      | (cases d.IamInstanceProfile <;> rfl)
      | (cases d.InstanceMarketOptions <;> rfl)
  · simp at h

/-! ## Identifiers: decimal formatting is injective -/

theorem digitValue_digitChar (k : Nat) (h : k < 10) : digitValue (Nat.digitChar k) = k := by
  interval_cases k <;> rfl

theorem foldl_toDigitsCore (fuel : Nat) : ∀ (n : Nat) (ds : List Char), n < fuel →
    (Nat.toDigitsCore 10 fuel n ds).foldl (fun a c => a * 10 + digitValue c) 0 =
      ds.foldl (fun a c => a * 10 + digitValue c) n := by
  induction fuel with
  | zero => intro n ds h; omega
  | succ fuel ih =>
    intro n ds h
    unfold Nat.toDigitsCore
    simp only
    split
    · next h0 =>
      have hn : n < 10 := by omega
      simp [List.foldl, digitValue_digitChar _ hn, Nat.mod_eq_of_lt hn]
    · next h0 =>
      have h1 : n / 10 < fuel := by omega
      rw [ih _ _ h1]
      simp only [List.foldl, digitValue_digitChar _ (Nat.mod_lt n (by decide))]
      congr 1
      omega

theorem decimalValue_toString (n : Nat) : decimalValue (toString n).data = n := by
  show decimalValue (Nat.repr n).data = n
  unfold Nat.repr Nat.toDigits decimalValue
  simp only [List.asString]
  rw [foldl_toDigitsCore _ _ _ (Nat.lt_succ_self n)]
  rfl

theorem launchTemplateId_injective : Function.Injective launchTemplateId := by
  intro a b h
  unfold launchTemplateId at h
  have h1 := congrArg String.data h
  simp only [String.data_append] at h1
  have h2 := List.append_cancel_left h1
  have h3 := congrArg decimalValue h2
  rwa [decimalValue_toString, decimalValue_toString] at h3

/-! ## The loops over the map -/

theorem foldl_describe (l : List (Sigma fun _ : String => launchTemplateInfo))
    (o : DescribeLaunchTemplatesOutput) :
    l.foldl (fun (o : DescribeLaunchTemplatesOutput) e =>
        { o with LaunchTemplates := o.LaunchTemplates ++ [{ LaunchTemplateName := e.2.name }] }) o =
      { o with LaunchTemplates := o.LaunchTemplates ++
          l.map fun e => { LaunchTemplateName := e.2.name } } := by
  induction l generalizing o with
  | nil => simp
  | cons x xs ih => simp [List.foldl, ih]

theorem foldl_describeVersions (n : Option String)
    (l : List (Sigma fun _ : String => launchTemplateInfo))
    (o : DescribeLaunchTemplateVersionsOutput) :
    l.foldl (fun (o : DescribeLaunchTemplateVersionsOutput) e =>
        if StringValue e.2.name ≠ StringValue n then o
        else
          { o with LaunchTemplateVersions := o.LaunchTemplateVersions ++
              [{ DefaultVersion := some true
                 LaunchTemplateId := some e.1
                 LaunchTemplateData := e.2.data
                 LaunchTemplateName := n }] }) o =
      { o with LaunchTemplateVersions := o.LaunchTemplateVersions ++
          (l.filter fun e => nameMatches e.2.name n).map fun e =>
            { DefaultVersion := some true
              LaunchTemplateId := some e.1
              LaunchTemplateData := e.2.data
              LaunchTemplateName := n } } := by
  induction l generalizing o with
  | nil => simp
  | cons x xs ih =>
    by_cases hx : StringValue x.2.name = StringValue n
    · have hf : nameMatches x.2.name n = true := by simp [nameMatches, hx]
      rw [List.foldl_cons, if_neg (not_not.mpr hx), ih]
      simp [List.filter_cons, hf]
    · have hf : ¬ nameMatches x.2.name n = true := by simp [nameMatches, hx]
      rw [List.foldl_cons, if_pos hx, ih]
      simp [List.filter_cons, hf]

theorem lookup_foldl_delete_of_match (n : Option String) (id : String) :
    ∀ (l : List (Sigma fun _ : String => launchTemplateInfo)) (acc : LaunchTemplateMap),
      (∃ e ∈ l, e.1 = id ∧ StringValue e.2.name = StringValue n) →
      (l.foldl (fun (acc : LaunchTemplateMap) e =>
          if StringValue e.2.name = StringValue n then acc.erase e.1 else acc) acc).lookup id =
        none := by
  intro l
  induction l with
  | nil => intro acc h; simp at h
  | cons x xs ih =>
    intro acc h
    simp only [List.foldl]
    by_cases hx : ∃ e ∈ xs, e.1 = id ∧ StringValue e.2.name = StringValue n
    · exact ih _ hx
    · obtain ⟨e, he, hid, hn⟩ := h
      rcases List.mem_cons.mp he with rfl | he
      · -- the matching entry is the visited one; no later entry touches `id`
        rw [if_pos hn]
        clear ih he
        subst hid
        generalize hacc : AList.erase e.1 acc = a
        have ha : a.lookup e.1 = none := by rw [← hacc]; exact AList.lookup_erase _ _
        clear hacc
        induction xs generalizing a with
        | nil => simpa using ha
        | cons y ys ihy =>
          simp only [List.foldl]
          apply ihy
          · intro ⟨e2, he2, h2⟩
            exact hx ⟨e2, List.mem_cons_of_mem _ he2, h2⟩
          · split
            · by_cases hy : e.1 = y.1
              · rw [hy]; exact AList.lookup_erase _ _
              · rw [AList.lookup_erase_ne hy]; exact ha
            · exact ha
      · exact absurd ⟨e, he, hid, hn⟩ hx

theorem lookup_foldl_delete_of_no_match (n : Option String) (id : String) :
    ∀ (l : List (Sigma fun _ : String => launchTemplateInfo)) (acc : LaunchTemplateMap),
      (¬ ∃ e ∈ l, e.1 = id ∧ StringValue e.2.name = StringValue n) →
      (l.foldl (fun (acc : LaunchTemplateMap) e =>
          if StringValue e.2.name = StringValue n then acc.erase e.1 else acc) acc).lookup id =
        acc.lookup id := by
  intro l
  induction l with
  | nil => intro acc _; rfl
  | cons x xs ih =>
    intro acc h
    simp only [List.foldl]
    rw [ih]
    · split
      · next hn =>
        have hne : id ≠ x.1 := by
          intro hid
          exact h ⟨x, List.mem_cons_self _ _, hid.symm, hn⟩
        exact AList.lookup_erase_ne hne
      · rfl
    · intro ⟨e, he, h2⟩
      exact h ⟨e, List.mem_cons_of_mem _ he, h2⟩

/-! ## Records and their identifiers -/

theorem record_eq_some_iff (m : MockEC2) (id : String) (info : launchTemplateInfo) :
    m.record id = some info ↔ Sigma.mk id info ∈ m.records := by
  unfold MockEC2.record MockEC2.records
  cases m.LaunchTemplates with
  | none => simp
  | some lts => exact AList.mem_lookup_iff

theorem records_keys_nodup (m : MockEC2) : (m.records.map fun e => e.1).Nodup := by
  unfold MockEC2.records
  cases m.LaunchTemplates with
  | none => simp
  | some lts => exact lts.nodupKeys

theorem describeVersions_eq (m : MockEC2) (request : DescribeLaunchTemplateVersionsInput) :
    DescribeLaunchTemplateVersions m request = .ok m
      { LaunchTemplateVersions :=
          (m.records.filter fun e => nameMatches e.2.name request.LaunchTemplateName).map fun e =>
            { DefaultVersion := some true
              LaunchTemplateId := some e.1
              LaunchTemplateData := e.2.data
              LaunchTemplateName := request.LaunchTemplateName } } := by
  unfold DescribeLaunchTemplateVersions MockEC2.records
  cases m.LaunchTemplates with
  | none => simp
  | some lts => simp only [foldl_describeVersions]; simp

theorem describe_eq (m : MockEC2) (request : DescribeLaunchTemplatesInput) :
    DescribeLaunchTemplates m request = .ok m
      { LaunchTemplates := m.records.map fun e => { LaunchTemplateName := e.2.name } } := by
  unfold DescribeLaunchTemplates MockEC2.records
  cases m.LaunchTemplates with
  | none => simp
  | some lts => simp only [foldl_describe]; simp

theorem delete_record (m : MockEC2) (request : DeleteLaunchTemplateInput) :
    ∃ m1, DeleteLaunchTemplate m request = .ok m1 {} ∧
      m1.launchTemplateNumber = m.launchTemplateNumber ∧
      m1.addTagsCalls = m.addTagsCalls ∧
      ∀ id, m1.record id =
        (m.record id).filter fun info => !nameMatches info.name request.LaunchTemplateName := by
  unfold DeleteLaunchTemplate
  cases hm : m.LaunchTemplates with
  | none =>
    refine ⟨m, rfl, rfl, rfl, fun id => ?_⟩
    simp [MockEC2.record, hm]
  | some lts =>
    refine ⟨_, rfl, rfl, rfl, fun id => ?_⟩
    simp only [MockEC2.record, hm]
    by_cases h : ∃ e ∈ lts.entries, e.1 = id ∧
        StringValue e.2.name = StringValue request.LaunchTemplateName
    · rw [lookup_foldl_delete_of_match _ _ _ _ h]
      obtain ⟨⟨k, info⟩, he, hid, hn⟩ := h
      simp only at hid hn
      subst hid
      have hl : lts.lookup k = some info := AList.mem_lookup_iff.mpr he
      simp [hl, nameMatches, hn, Option.filter]
    · rw [lookup_foldl_delete_of_no_match _ _ _ _ h]
      cases hl : lts.lookup id with
      | none => rfl
      | some info =>
        have he : Sigma.mk id info ∈ lts.entries := AList.mem_lookup_iff.mp hl
        have hn : ¬ StringValue info.name = StringValue request.LaunchTemplateName :=
          fun hn => h ⟨_, he, rfl, hn⟩
        simp [nameMatches, hn, Option.filter]

/-! ## The claims -/

/-- C3. `DescribeLaunchTemplateVersions` is a filter by name. It returns without
error and leaves the registry as it was; an entry is in the answer exactly when
it is the version entry (default version true, the record's identifier, the
record's stored data, the requested name) of a stored record whose name equals
the requested one; no entry is repeated; and the answer has as many entries as
there are stored records with that name. -/
theorem DescribeLaunchTemplateVersions_filters_by_name (m : MockEC2)
    (request : DescribeLaunchTemplateVersionsInput) :
    ∃ o, DescribeLaunchTemplateVersions m request = .ok m o ∧
      (∀ v, v ∈ o.LaunchTemplateVersions ↔
        ∃ id info, m.record id = some info ∧
          StringValue info.name = StringValue request.LaunchTemplateName ∧
          v = { DefaultVersion := some true
                LaunchTemplateId := some id
                LaunchTemplateData := info.data
                LaunchTemplateName := request.LaunchTemplateName }) ∧
      o.LaunchTemplateVersions.Nodup ∧
      o.LaunchTemplateVersions.length =
        (m.records.filter fun e => nameMatches e.2.name request.LaunchTemplateName).length := by
  refine ⟨_, describeVersions_eq m request, ?_, ?_, ?_⟩
  · intro v
    simp only [List.mem_map, List.mem_filter, nameMatches, decide_eq_true_eq]
    constructor
    · rintro ⟨⟨id, info⟩, ⟨he, hn⟩, rfl⟩
      exact ⟨id, info, (record_eq_some_iff m id info).mpr he, hn, rfl⟩
    · rintro ⟨id, info, hr, hn, rfl⟩
      exact ⟨⟨id, info⟩, ⟨(record_eq_some_iff m id info).mp hr, hn⟩, rfl⟩
  · have hk : ((m.records.filter fun e =>
        nameMatches e.2.name request.LaunchTemplateName).map fun e => e.1).Nodup :=
      ((List.filter_sublist _).map _).nodup (records_keys_nodup m)
    have hk2 : ((m.records.filter fun e =>
        nameMatches e.2.name request.LaunchTemplateName).map fun e => some e.1).Nodup := by
      have := hk.map (Option.some_injective String)
      simpa [List.map_map] using this
    refine List.Nodup.of_map (fun v : LaunchTemplateVersion => v.LaunchTemplateId) ?_
    simpa [List.map_map, Function.comp_def] using hk2
  · simp

/-- C4. `DeleteLaunchTemplate` removes exactly the matching records. It returns
without error, and afterwards a record is stored under an identifier exactly
when the same record (same name, same data) was stored under that identifier
before and its name differs from the requested name. -/
theorem DeleteLaunchTemplate_removes_exactly_matching (m : MockEC2)
    (request : DeleteLaunchTemplateInput) :
    ∃ m1, DeleteLaunchTemplate m request = .ok m1 {} ∧
      ∀ id info, m1.record id = some info ↔
        (m.record id = some info ∧
          StringValue info.name ≠ StringValue request.LaunchTemplateName) := by
  obtain ⟨m1, h1, _, _, hr⟩ := delete_record m request
  refine ⟨m1, h1, fun id info => ?_⟩
  rw [hr id]
  cases m.record id with
  | none => simp
  | some i =>
    simp only [Option.filter, nameMatches]
    by_cases hn : StringValue i.name = StringValue request.LaunchTemplateName
    · simp only [hn, decide_True, Bool.not_true, Bool.false_eq_true, ↓reduceIte,
        Option.some.injEq]
      constructor
      · intro hi; cases hi
      · rintro ⟨hi, hne⟩; rw [← hi] at hne; exact absurd hn hne
    · simp only [hn, decide_False, Bool.not_false, ↓reduceIte, Option.some.injEq]
      constructor
      · intro hi; rw [← hi]; exact ⟨rfl, hn⟩
      · exact fun h => h.1

/-- C5. `DescribeLaunchTemplates` is a name-only projection of the registry. It
returns without error and leaves the registry as it was; the answer has one
entry per stored record, the names of the entries are the names of the records
with their multiplicities, and every entry has all fields other than
`LaunchTemplateName` absent, the identifier among them. -/
theorem DescribeLaunchTemplates_projects_names (m : MockEC2)
    (request : DescribeLaunchTemplatesInput) :
    ∃ o, DescribeLaunchTemplates m request = .ok m o ∧
      o.LaunchTemplates.length = m.records.length ∧
      Multiset.ofList (o.LaunchTemplates.map fun e => e.LaunchTemplateName) =
        Multiset.ofList (m.records.map fun e => e.2.name) ∧
      ∀ e ∈ o.LaunchTemplates,
        e.LaunchTemplateId = none ∧ e = { LaunchTemplateName := e.LaunchTemplateName } := by
  refine ⟨_, describe_eq m request, ?_, ?_, ?_⟩
  · simp
  · simp [List.map_map, Function.comp_def]
  · intro e he
    simp only [List.mem_map] at he
    obtain ⟨x, _, rfl⟩ := he
    exact ⟨rfl, rfl⟩

/-! ## What a create call does -/

theorem ensureMap_lookup (m : MockEC2) (id : String) : m.ensureMap.lookup id = m.record id := by
  unfold MockEC2.ensureMap MockEC2.record
  cases m.LaunchTemplates <;> rfl

/-- The three ways a create call can end. -/
theorem create_cases (m : MockEC2) (request : CreateLaunchTemplateInput) :
    ((m.record (launchTemplateId (m.launchTemplateNumber + 1))).isSome = true ∧
      CreateLaunchTemplate m request =
        .error { m with launchTemplateNumber := m.launchTemplateNumber + 1
                        LaunchTemplates := some m.ensureMap }
          (duplicateError (launchTemplateId (m.launchTemplateNumber + 1)))) ∨
    (m.record (launchTemplateId (m.launchTemplateNumber + 1)) = none ∧
      (request.LaunchTemplateData = none ∨
        ∃ d, request.LaunchTemplateData = some d ∧ buildResponseData d = none) ∧
      CreateLaunchTemplate m request = .panic) ∨
    (m.record (launchTemplateId (m.launchTemplateNumber + 1)) = none ∧
      ∃ d resp, request.LaunchTemplateData = some d ∧ buildResponseData d = some resp ∧
        CreateLaunchTemplate m request =
          .ok { LaunchTemplates := some (m.ensureMap.insert
                  (launchTemplateId (m.launchTemplateNumber + 1))
                  { data := some resp, name := request.LaunchTemplateName })
                launchTemplateNumber := m.launchTemplateNumber + 1
                addTagsCalls := m.addTagsCalls ++
                  [(launchTemplateId (m.launchTemplateNumber + 1),
                    tagSpecificationsToTags request.TagSpecifications
                      ResourceTypeLaunchTemplate)] }
            {}) := by
  unfold CreateLaunchTemplate
  simp only [ensureMap_lookup]
  cases hrec : m.record (launchTemplateId (m.launchTemplateNumber + 1)) with
  | some info => left; simp
  | none =>
    right
    cases hd : request.LaunchTemplateData with
    | none => left; simp
    | some d =>
      cases hb : buildResponseData d with
      | none => left; simp [hb]
      | some resp => right; simp [hb, MockEC2.addTags]

theorem create_ok_inv (m : MockEC2) (request : CreateLaunchTemplateInput) (m1 : MockEC2)
    (o : CreateLaunchTemplateOutput) (h : CreateLaunchTemplate m request = .ok m1 o) :
    m.record (launchTemplateId (m.launchTemplateNumber + 1)) = none ∧
    ∃ d resp, request.LaunchTemplateData = some d ∧ buildResponseData d = some resp ∧
      m1 = { LaunchTemplates := some (m.ensureMap.insert
               (launchTemplateId (m.launchTemplateNumber + 1))
               { data := some resp, name := request.LaunchTemplateName })
             launchTemplateNumber := m.launchTemplateNumber + 1
             addTagsCalls := m.addTagsCalls ++
               [(launchTemplateId (m.launchTemplateNumber + 1),
                 tagSpecificationsToTags request.TagSpecifications
                   ResourceTypeLaunchTemplate)] } := by
  rcases create_cases m request with ⟨_, h1⟩ | ⟨_, _, h1⟩ | ⟨hr, d, resp, hd, hb, h1⟩
  · rw [h1] at h; cases h
  · rw [h1] at h; cases h
  · rw [h1] at h
    injection h with hm _
    exact ⟨hr, d, resp, hd, hb, hm.symm⟩

theorem create_error_inv (m : MockEC2) (request : CreateLaunchTemplateInput) (m1 : MockEC2)
    (msg : String) (h : CreateLaunchTemplate m request = .error m1 msg) :
    (m.record (launchTemplateId (m.launchTemplateNumber + 1))).isSome = true ∧
    m1 = { m with launchTemplateNumber := m.launchTemplateNumber + 1
                  LaunchTemplates := some m.ensureMap } ∧
    msg = duplicateError (launchTemplateId (m.launchTemplateNumber + 1)) := by
  rcases create_cases m request with ⟨hr, h1⟩ | ⟨_, _, h1⟩ | ⟨_, d, resp, _, _, h1⟩
  · rw [h1] at h
    injection h with hm hmsg
    exact ⟨hr, hm.symm, hmsg.symm⟩
  · rw [h1] at h; cases h
  · rw [h1] at h; cases h

theorem record_insert_self (m : MockEC2) (id : String) (info : launchTemplateInfo)
    (n : Nat) (calls : List (String × List Tag)) :
    MockEC2.record { LaunchTemplates := some (m.ensureMap.insert id info)
                     launchTemplateNumber := n
                     addTagsCalls := calls } id = some info := by
  simp [MockEC2.record]

theorem record_insert_ne (m : MockEC2) (id id1 : String) (info : launchTemplateInfo)
    (n : Nat) (calls : List (String × List Tag)) (h : id1 ≠ id) :
    MockEC2.record { LaunchTemplates := some (m.ensureMap.insert id info)
                     launchTemplateNumber := n
                     addTagsCalls := calls } id1 = m.record id1 := by
  simp [MockEC2.record, AList.lookup_insert_ne h, ensureMap_lookup]

/-- C6. Duplicate-identifier failure and its atomicity. A create call returns
an error exactly when a record is already stored under the identifier made from
the next counter value; that error is the duplicate-identifier error, and the
call that returns it leaves the record map and the Tag Binder log as they were
(only the counter has advanced). -/
theorem CreateLaunchTemplate_duplicate_iff_and_atomic (m : MockEC2)
    (request : CreateLaunchTemplateInput) :
    ((∃ m1 msg, CreateLaunchTemplate m request = .error m1 msg) ↔
      (m.record (launchTemplateId (m.launchTemplateNumber + 1))).isSome = true) ∧
    ∀ m1 msg, CreateLaunchTemplate m request = .error m1 msg →
      msg = duplicateError (launchTemplateId (m.launchTemplateNumber + 1)) ∧
      m1.LaunchTemplates = m.LaunchTemplates ∧
      (∀ id, m1.record id = m.record id) ∧
      m1.addTagsCalls = m.addTagsCalls ∧
      m1.launchTemplateNumber = m.launchTemplateNumber + 1 := by
  constructor
  · constructor
    · rintro ⟨m1, msg, h⟩
      exact (create_error_inv m request m1 msg h).1
    · intro hr
      rcases create_cases m request with ⟨_, h1⟩ | ⟨hn, _, _⟩ | ⟨hn, _⟩
      · exact ⟨_, _, h1⟩
      · rw [hn] at hr; cases hr
      · rw [hn] at hr; cases hr
  · intro m1 msg h
    obtain ⟨hr, hm, hmsg⟩ := create_error_inv m request m1 msg h
    have hmap : m1.LaunchTemplates = m.LaunchTemplates := by
      subst hm
      cases hl : m.LaunchTemplates with
      | none => simp [MockEC2.record, hl] at hr
      | some lts => simp [MockEC2.ensureMap, hl]
    refine ⟨hmsg, hmap, fun id => ?_, ?_, ?_⟩
    · simp [MockEC2.record, hmap]
    · subst hm; rfl
    · subst hm; rfl

/-- Witness for C6: on the directly filled registry (record under `lt-1`,
counter zero) a create call returns the duplicate error and keeps the map. -/
theorem CreateLaunchTemplate_duplicate_iff_and_atomic_witness :
    CreateLaunchTemplate registryFilledDirectly requestA =
        .error { registryFilledDirectly with launchTemplateNumber := 1 }
          "duplicate LaunchTemplateName lt-1" ∧
      ("duplicate LaunchTemplateName lt-1" = duplicateError (launchTemplateId 1) ∧
        registryFilledDirectly.LaunchTemplates = registryFilledDirectly.LaunchTemplates ∧
        (∀ id, MockEC2.record { registryFilledDirectly with launchTemplateNumber := 1 } id =
          registryFilledDirectly.record id) ∧
        ([] : List (String × List Tag)) = [] ∧ 1 = 0 + 1) :=
  ⟨rfl, (CreateLaunchTemplate_duplicate_iff_and_atomic registryFilledDirectly requestA).2
    { registryFilledDirectly with launchTemplateNumber := 1 }
    "duplicate LaunchTemplateName lt-1" rfl⟩

/-- C8. Optional-field fidelity. After a create call that returns without
error, the record stored under the new identifier carries the request name, and
in its payload each of `Monitoring`, `CpuOptions`, `CreditSpecification` and
`IamInstanceProfile` is absent when the request block is absent and present
with the same inner fields when the request block is present. -/
theorem CreateLaunchTemplate_optional_blocks (m : MockEC2)
    (request : CreateLaunchTemplateInput) (m1 : MockEC2) (o : CreateLaunchTemplateOutput)
    (h : CreateLaunchTemplate m request = .ok m1 o) :
    ∃ d resp, request.LaunchTemplateData = some d ∧
      m1.record (launchTemplateId (m.launchTemplateNumber + 1)) =
        some { data := some resp, name := request.LaunchTemplateName } ∧
      (d.Monitoring = none → resp.Monitoring = none) ∧
      (∀ x, d.Monitoring = some x → ∃ y, resp.Monitoring = some y ∧ y.Enabled = x.Enabled) ∧
      (d.CpuOptions = none → resp.CpuOptions = none) ∧
      (∀ x, d.CpuOptions = some x → ∃ y, resp.CpuOptions = some y ∧
        y.CoreCount = x.CoreCount ∧ y.ThreadsPerCore = x.ThreadsPerCore) ∧
      (d.CreditSpecification = none → resp.CreditSpecification = none) ∧
      (∀ x, d.CreditSpecification = some x → ∃ y, resp.CreditSpecification = some y ∧
        y.CpuCredits = x.CpuCredits) ∧
      (d.IamInstanceProfile = none → resp.IamInstanceProfile = none) ∧
      (∀ x, d.IamInstanceProfile = some x → ∃ y, resp.IamInstanceProfile = some y ∧
        y.Arn = x.Arn ∧ y.Name = x.Name) := by
  obtain ⟨_, d, resp, hd, hb, hm⟩ := create_ok_inv m request m1 o h
  have ht := buildResponseData_eq_translateSpec d resp hb
  refine ⟨d, resp, hd, ?_, ?_⟩
  · subst hm; exact record_insert_self _ _ _ _ _
  · subst ht
    refine ⟨?_, ?_, ?_, ?_, ?_, ?_, ?_, ?_⟩
    · intro h0; simp [translateSpec, h0]
    · intro x h0; simp [translateSpec, h0]
    · intro h0; simp [translateSpec, h0]
    · intro x h0; simp [translateSpec, h0]
    · intro h0; simp [translateSpec, h0]
    · intro x h0; simp [translateSpec, h0]
    · intro h0; simp [translateSpec, h0]
    · intro x h0; simp [translateSpec, h0]

/-- Witness for C8: the request `requestA` sets all four blocks; after the
create call on a fresh registry the record under `lt-1` has them with the same
inner values. -/
theorem CreateLaunchTemplate_optional_blocks_witness :
    ∃ m1, CreateLaunchTemplate fresh requestA = .ok m1 {} ∧
      ∃ resp, m1.record "lt-1" = some { data := some resp, name := some "lt-A" } ∧
        resp.Monitoring = some { Enabled := some true } ∧
        resp.CpuOptions = some { CoreCount := some 2, ThreadsPerCore := some 1 } ∧
        resp.CreditSpecification = some { CpuCredits := some "standard" } ∧
        resp.IamInstanceProfile = some { Arn := none, Name := some "nodes" } := by
  refine ⟨_, rfl, ?_⟩
  obtain ⟨d, resp, hd, hrec, -, hmon, -, hcpu, -, hcred, -, hiam⟩ :=
    CreateLaunchTemplate_optional_blocks fresh requestA _ {} rfl
  have hd1 : d = { ImageId := some "ami-1"
                   InstanceType := some "t2.micro"
                   SecurityGroupIds := ["sg-1"]
                   Monitoring := some { Enabled := some true }
                   CpuOptions := some { CoreCount := some 2, ThreadsPerCore := some 1 }
                   CreditSpecification := some { CpuCredits := some "standard" }
                   IamInstanceProfile := some { Name := some "nodes" }
                   InstanceMarketOptions := some
                     { MarketType := some "spot", SpotOptions := some { MaxPrice := some "0.5" } }
                   BlockDeviceMappings :=
                     [{ DeviceName := some "/dev/xvda", Ebs := some { VolumeSize := some 8 } },
                      { DeviceName := some "/dev/xvdb" }]
                   NetworkInterfaces := [{ DeviceIndex := some 0, Groups := ["sg-1"] }]
                   TagSpecifications :=
                     [{ ResourceType := some "instance", Tags := [⟨some "k", some "v"⟩] }] } :=
    (Option.some.inj hd).symm
  subst hd1
  refine ⟨resp, hrec, ?_, ?_, ?_, ?_⟩
  · obtain ⟨y, hy, he⟩ := hmon _ rfl
    rw [hy]; cases y; simp_all
  · obtain ⟨y, hy, h1, h2⟩ := hcpu _ rfl
    rw [hy]; cases y; simp_all
  · obtain ⟨y, hy, h1⟩ := hcred _ rfl
    rw [hy]; cases y; simp_all
  · obtain ⟨y, hy, h1, h2⟩ := hiam _ rfl
    rw [hy]; cases y; simp_all

/-- C9 (what the code does). A create call on a registry with no record under
the next identifier, for a request whose `InstanceMarketOptions` block is
present with an absent `SpotOptions`, does not complete: it stops on the nil
dereference of source line 150. -/
theorem CreateLaunchTemplate_absent_SpotOptions_panics (m : MockEC2)
    (request : CreateLaunchTemplateInput) (d : RequestLaunchTemplateData)
    (x : LaunchTemplateInstanceMarketOptionsRequest)
    (hfree : m.record (launchTemplateId (m.launchTemplateNumber + 1)) = none)
    (hd : request.LaunchTemplateData = some d)
    (hx : d.InstanceMarketOptions = some x)
    (hs : x.SpotOptions = none) :
    CreateLaunchTemplate m request = .panic := by
  have hb : buildResponseData d = none := (buildResponseData_eq_none_iff d).mpr ⟨x, hx, hs⟩
  rcases create_cases m request with ⟨hr, _⟩ | ⟨_, _, h1⟩ | ⟨_, d1, resp, hd1, hb1, _⟩
  · rw [hfree] at hr; cases hr
  · exact h1
  · rw [hd] at hd1
    cases hd1
    rw [hb] at hb1
    cases hb1

/-- Witness for C9: the request `requestNoSpotOptions` on a fresh registry. -/
theorem CreateLaunchTemplate_absent_SpotOptions_panics_witness :
    CreateLaunchTemplate fresh requestNoSpotOptions = .panic :=
  CreateLaunchTemplate_absent_SpotOptions_panics fresh requestNoSpotOptions
    { InstanceMarketOptions := some { MarketType := some "spot" } }
    { MarketType := some "spot" } rfl rfl rfl rfl

/-- C1. Round trip of create and describe-versions. If the registry holds no
record with the name `name` (in particular `lt-A`) and a create request with
that name returns without error, then a following describe-versions call for
that name returns exactly one version, whose payload is the translation of the
request data by the table of the specification. -/
theorem create_then_describeVersions_roundtrip (m : MockEC2)
    (request : CreateLaunchTemplateInput) (name : String) (m1 : MockEC2)
    (o : CreateLaunchTemplateOutput) (q : DescribeLaunchTemplateVersionsInput)
    (hname : request.LaunchTemplateName = some name)
    (hfree : ∀ id info, m.record id = some info → StringValue info.name ≠ name)
    (hok : CreateLaunchTemplate m request = .ok m1 o)
    (hq : q.LaunchTemplateName = some name) :
    ∃ d v, request.LaunchTemplateData = some d ∧
      DescribeLaunchTemplateVersions m1 q = .ok m1 { LaunchTemplateVersions := [v] } ∧
      v.LaunchTemplateData = some (translateSpec d) := by
  obtain ⟨hr, d, resp, hd, hb, hm⟩ := create_ok_inv m request m1 o hok
  have ht := buildResponseData_eq_translateSpec d resp hb
  have hnot : launchTemplateId (m.launchTemplateNumber + 1) ∉ m.ensureMap := by
    rw [← AList.lookup_eq_none, ensureMap_lookup]; exact hr
  have hrest : (m.ensureMap.entries.filter fun e => nameMatches e.2.name q.LaunchTemplateName) =
      [] := by
    rw [List.filter_eq_nil_iff]
    rintro ⟨id, info⟩ he
    have hrec : m.record id = some info := by
      rw [← ensureMap_lookup]; exact AList.mem_lookup_iff.mpr he
    have := hfree id info hrec
    simpa [nameMatches, hq, StringValue] using this
  refine ⟨d, ⟨none, none, some true, some resp,
    some (launchTemplateId (m.launchTemplateNumber + 1)), q.LaunchTemplateName, none, none⟩,
    hd, ?_, ?_⟩
  · rw [describeVersions_eq]
    subst hm
    simp only [MockEC2.records, AList.insert_entries_of_neg hnot]
    rw [List.filter_cons_of_pos (by simp [nameMatches, hname, hq]), hrest]
    rfl
  · simp [ht]

/-- Witness for C1: `requestA`, named `lt-A`, on a fresh registry. -/
theorem create_then_describeVersions_roundtrip_witness :
    ∃ m1 d v, CreateLaunchTemplate fresh requestA = .ok m1 {} ∧
      requestA.LaunchTemplateData = some d ∧
      DescribeLaunchTemplateVersions m1 { LaunchTemplateName := some "lt-A" } =
        .ok m1 { LaunchTemplateVersions := [v] } ∧
      v.LaunchTemplateData = some (translateSpec d) := by
  obtain ⟨d, v, hd, hv, ht⟩ := create_then_describeVersions_roundtrip fresh requestA "lt-A" _ {}
    { LaunchTemplateName := some "lt-A" } rfl
    (by intro id info h; simp [MockEC2.record, fresh] at h) rfl rfl
  exact ⟨_, d, v, rfl, hd, hv, ht⟩

/-- C10. Bulk delete as seen through the queries. After a delete call for a
name, a describe-versions call for that name returns no version and a
describe call returns no entry with that name; so it is after two creates both
named `shared`, which before the delete showed as two versions. -/
theorem delete_then_queries_find_nothing (m : MockEC2) (n : Option String)
    (q : DescribeLaunchTemplatesInput) :
    (∃ m1, DeleteLaunchTemplate m { LaunchTemplateName := n } = .ok m1 {} ∧
      DescribeLaunchTemplateVersions m1 { LaunchTemplateName := n } = .ok m1 {} ∧
      ∃ o, DescribeLaunchTemplates m1 q = .ok m1 o ∧
        ∀ e ∈ o.LaunchTemplates, StringValue e.LaunchTemplateName ≠ StringValue n) ∧
    (∃ m1 m2 m3 o, CreateLaunchTemplate fresh requestShared = .ok m1 {} ∧
      CreateLaunchTemplate m1 requestShared = .ok m2 {} ∧
      DescribeLaunchTemplateVersions m2 { LaunchTemplateName := some "shared" } = .ok m2 o ∧
      o.LaunchTemplateVersions.length = 2 ∧
      DeleteLaunchTemplate m2 { LaunchTemplateName := some "shared" } = .ok m3 {} ∧
      DescribeLaunchTemplateVersions m3 { LaunchTemplateName := some "shared" } = .ok m3 {} ∧
      DescribeLaunchTemplates m3 q = .ok m3 {}) := by
  constructor
  · obtain ⟨m1, h1, _, _, hr⟩ := delete_record m { LaunchTemplateName := n }
    have hno : ∀ e ∈ m1.records, StringValue e.2.name ≠ StringValue n := by
      rintro ⟨id, info⟩ he
      have h2 := (record_eq_some_iff m1 id info).mpr he
      rw [hr id] at h2
      cases hrec : m.record id with
      | none => simp [hrec] at h2
      | some i =>
        simp only [hrec, Option.filter, nameMatches] at h2
        split at h2
        · next hc =>
          cases h2
          simpa using hc
        · cases h2
    refine ⟨m1, h1, ?_, _, describe_eq m1 q, ?_⟩
    · rw [describeVersions_eq]
      have : (m1.records.filter fun e => nameMatches e.2.name n) = [] := by
        rw [List.filter_eq_nil_iff]
        intro e he
        simpa [nameMatches] using hno e he
      simp [this]
    · intro e he
      simp only [List.mem_map] at he
      obtain ⟨x, hx, rfl⟩ := he
      exact hno x hx
  · exact ⟨_, _, _, _, rfl, rfl, rfl, rfl, rfl, rfl, rfl⟩

/-! ## Call sequences: the counter and the stored identifiers -/

theorem step_describe (m : MockEC2) (r : DescribeLaunchTemplatesInput) :
    step m (.describe r) = some m := by
  simp [step, describe_eq, Result.registry]

theorem step_describeVersions (m : MockEC2) (r : DescribeLaunchTemplateVersionsInput) :
    step m (.describeVersions r) = some m := by
  simp [step, describeVersions_eq, Result.registry]

theorem step_delete (m : MockEC2) (r : DeleteLaunchTemplateInput) :
    ∃ m1, step m (.delete r) = some m1 ∧ m1.launchTemplateNumber = m.launchTemplateNumber ∧
      ∀ id, m1.record id = (m.record id).filter fun info =>
        !nameMatches info.name r.LaunchTemplateName := by
  obtain ⟨m1, h1, hn, _, hr⟩ := delete_record m r
  exact ⟨m1, by simp [step, h1, Result.registry], hn, hr⟩

theorem step_create (m : MockEC2) (r : CreateLaunchTemplateInput) (m1 : MockEC2)
    (h : step m (.create r) = some m1) :
    m1.launchTemplateNumber = m.launchTemplateNumber + 1 ∧
    ∀ id, (m1.record id).isSome = true →
      id = launchTemplateId (m.launchTemplateNumber + 1) ∨ (m.record id).isSome = true := by
  simp only [step] at h
  rcases create_cases m r with ⟨_, h1⟩ | ⟨_, _, h1⟩ | ⟨_, d, resp, _, _, h1⟩
  · rw [h1] at h
    simp only [Result.registry, Option.some.injEq] at h
    subst h
    refine ⟨rfl, fun id hid => Or.inr ?_⟩
    simpa [MockEC2.record, ensureMap_lookup] using hid
  · rw [h1] at h; simp [Result.registry] at h
  · rw [h1] at h
    simp only [Result.registry, Option.some.injEq] at h
    subst h
    refine ⟨rfl, fun id hid => ?_⟩
    by_cases hne : id = launchTemplateId (m.launchTemplateNumber + 1)
    · exact Or.inl hne
    · rw [record_insert_ne _ _ _ _ _ _ hne] at hid
      exact Or.inr hid

theorem step_counter_le (m : MockEC2) (c : Call) (m1 : MockEC2) (h : step m c = some m1) :
    m.launchTemplateNumber ≤ m1.launchTemplateNumber := by
  cases c with
  | create r => have := (step_create m r m1 h).1; omega
  | describe r => rw [step_describe] at h; cases h; exact le_refl _
  | describeVersions r => rw [step_describeVersions] at h; cases h; exact le_refl _
  | delete r =>
    obtain ⟨m2, h2, hn, _⟩ := step_delete m r
    rw [h2] at h; cases h; omega

/-- Stored identifiers are made from counter values between one and the counter. -/
theorem run_stored_ids (calls : List Call) :
    ∀ m m1 : MockEC2,
      (∀ id, (m.record id).isSome = true →
        ∃ k, 1 ≤ k ∧ k ≤ m.launchTemplateNumber ∧ id = launchTemplateId k) →
      run m calls = some m1 →
      ∀ id, (m1.record id).isSome = true →
        ∃ k, 1 ≤ k ∧ k ≤ m1.launchTemplateNumber ∧ id = launchTemplateId k := by
  induction calls with
  | nil =>
    intro m m1 hinv h
    simp only [run, Option.some.injEq] at h
    subst h
    exact hinv
  | cons c cs ih =>
    intro m m1 hinv h
    simp only [run] at h
    cases hs : step m c with
    | none => rw [hs] at h; cases h
    | some m2 =>
      rw [hs] at h
      refine ih m2 m1 ?_ h
      intro id hid
      cases c with
      | create r =>
        obtain ⟨hn, hrec⟩ := step_create m r m2 hs
        rcases hrec id hid with rfl | hold
        · exact ⟨_, by omega, by omega, rfl⟩
        · obtain ⟨k, h1, h2, h3⟩ := hinv id hold
          exact ⟨k, h1, by omega, h3⟩
      | describe r => rw [step_describe] at hs; cases hs; exact hinv id hid
      | describeVersions r => rw [step_describeVersions] at hs; cases hs; exact hinv id hid
      | delete r =>
        obtain ⟨m3, h3, hn, hrec⟩ := step_delete m r
        rw [h3] at hs; cases hs
        rw [hrec id] at hid
        have hold : (m.record id).isSome = true := by
          cases hm : m.record id with
          | none => rw [hm] at hid; simp at hid
          | some i => rfl
        obtain ⟨k, h1, h2, h4⟩ := hinv id hold
        exact ⟨k, h1, by omega, h4⟩

theorem step_record_origin (m : MockEC2) (c : Call) (m1 : MockEC2) (h : step m c = some m1)
    (id : String) (hid : (m1.record id).isSome = true) :
    (m.record id).isSome = true ∨
      (c.isCreate = true ∧ id = launchTemplateId (m.launchTemplateNumber + 1)) := by
  cases c with
  | create r =>
    rcases (step_create m r m1 h).2 id hid with h1 | h1
    · exact Or.inr ⟨rfl, h1⟩
    · exact Or.inl h1
  | describe r => rw [step_describe] at h; cases h; exact Or.inl hid
  | describeVersions r => rw [step_describeVersions] at h; cases h; exact Or.inl hid
  | delete r =>
    obtain ⟨m3, h3, _, hrec⟩ := step_delete m r
    rw [h3] at h; cases h
    rw [hrec id] at hid
    left
    cases hm : m.record id with
    | none => rw [hm] at hid; simp at hid
    | some i => rfl

/-- C7. The duplicate-identifier error is unreachable. In every registry reached
from a fresh one by a sequence of the four operations, every stored identifier
is made from a counter value between one and the current counter, and a create
call never returns an error. -/
theorem duplicate_error_unreachable (calls : List Call) (m : MockEC2)
    (h : run fresh calls = some m) :
    (∀ id, (m.record id).isSome = true →
      ∃ k, 1 ≤ k ∧ k ≤ m.launchTemplateNumber ∧ id = launchTemplateId k) ∧
    ∀ request m1 msg, CreateLaunchTemplate m request ≠ .error m1 msg := by
  have hinv := run_stored_ids calls fresh m (by intro id hid; simp [MockEC2.record, fresh] at hid) h
  refine ⟨hinv, fun request m1 msg herr => ?_⟩
  obtain ⟨hr, _, _⟩ := create_error_inv m request m1 msg herr
  obtain ⟨k, _, hk, hid⟩ := hinv _ hr
  have := launchTemplateId_injective hid
  omega

/-- Witness for C7: the registry reached by `mixedCalls`. -/
theorem duplicate_error_unreachable_witness :
    ∃ m, run fresh mixedCalls = some m ∧ m.launchTemplateNumber = 4 ∧
      ∀ request m1 msg, CreateLaunchTemplate m request ≠ .error m1 msg :=
  ⟨_, rfl, rfl, (duplicate_error_unreachable mixedCalls _ rfl).2⟩

/-! ## Deletes that match nothing, and the read-only queries -/

theorem foldl_delete_of_no_match (n : Option String) :
    ∀ (l : List (Sigma fun _ : String => launchTemplateInfo)) (acc : LaunchTemplateMap),
      (∀ e ∈ l, StringValue e.2.name ≠ StringValue n) →
      l.foldl (fun (acc : LaunchTemplateMap) e =>
          if StringValue e.2.name = StringValue n then acc.erase e.1 else acc) acc = acc := by
  intro l
  induction l with
  | nil => intro acc _; rfl
  | cons x xs ih =>
    intro acc h
    rw [List.foldl_cons, if_neg (h x (List.mem_cons_self _ _))]
    exact ih acc fun e he => h e (List.mem_cons_of_mem _ he)

theorem records_no_match_of_record (m : MockEC2) (n : Option String)
    (h : ∀ id info, m.record id = some info → StringValue info.name ≠ StringValue n) :
    ∀ e ∈ m.records, StringValue e.2.name ≠ StringValue n := by
  rintro ⟨id, info⟩ he
  exact h id info ((record_eq_some_iff m id info).mpr he)

/-- C11. No-op delete. When no stored record has the requested name, a delete
call returns without error and leaves the registry exactly as it was: the same
map (a never-initialised map stays so), the same counter, the same tag log. -/
theorem DeleteLaunchTemplate_unmatched_is_noop (m : MockEC2)
    (request : DeleteLaunchTemplateInput)
    (h : ∀ id info, m.record id = some info →
      StringValue info.name ≠ StringValue request.LaunchTemplateName) :
    DeleteLaunchTemplate m request = .ok m {} := by
  have hno := records_no_match_of_record m _ h
  unfold DeleteLaunchTemplate
  cases hm : m.LaunchTemplates with
  | none => rfl
  | some lts =>
    have hl : ∀ e ∈ lts.entries,
        StringValue e.2.name ≠ StringValue request.LaunchTemplateName := by
      simpa [MockEC2.records, hm] using hno
    simp only [foldl_delete_of_no_match _ _ _ hl]
    rw [← hm]

/-- Witness for C11: deleting the name `other` from `registryTwo`, whose records
are named `web` and (absent), and from the never-initialised registry. -/
theorem DeleteLaunchTemplate_unmatched_is_noop_witness :
    DeleteLaunchTemplate registryTwo { LaunchTemplateName := some "other" } =
        .ok registryTwo {} ∧
      DeleteLaunchTemplate fresh { LaunchTemplateName := some "other" } = .ok fresh {} := by
  constructor
  · apply DeleteLaunchTemplate_unmatched_is_noop
    intro id info hrec
    have hmem := (record_eq_some_iff _ _ _).mp hrec
    have hall : ∀ e ∈ mapTwo.entries, StringValue e.2.name ≠ "other" := by decide
    exact hall _ hmem
  · apply DeleteLaunchTemplate_unmatched_is_noop
    intro id info hrec
    simp [MockEC2.record, fresh] at hrec

/-- C12. Not-found is never an error. In every registry each of describe,
describe-versions and delete returns without error for every request; a
describe-versions call for a name that no record has returns no version; and
a describe call on a never-initialised or empty registry returns no entry. -/
theorem not_found_is_never_an_error (m : MockEC2) :
    (∀ r, ∃ o, DescribeLaunchTemplates m r = .ok m o) ∧
    (∀ r, ∃ o, DescribeLaunchTemplateVersions m r = .ok m o) ∧
    (∀ r, ∃ m1, DeleteLaunchTemplate m r = .ok m1 {}) ∧
    (∀ r : DescribeLaunchTemplateVersionsInput,
      (∀ id info, m.record id = some info →
        StringValue info.name ≠ StringValue r.LaunchTemplateName) →
      DescribeLaunchTemplateVersions m r = .ok m {}) ∧
    (∀ r, (m.LaunchTemplates = none ∨ m.LaunchTemplates = some ∅) →
      DescribeLaunchTemplates m r = .ok m {}) := by
  refine ⟨fun r => ⟨_, describe_eq m r⟩, fun r => ⟨_, describeVersions_eq m r⟩, fun r => ?_,
    fun r h => ?_, fun r h => ?_⟩
  · obtain ⟨m1, h1, _⟩ := delete_record m r
    exact ⟨m1, h1⟩
  · rw [describeVersions_eq]
    have hno := records_no_match_of_record m _ h
    have : (m.records.filter fun e => nameMatches e.2.name r.LaunchTemplateName) = [] := by
      rw [List.filter_eq_nil_iff]
      intro e he
      simpa [nameMatches] using hno e he
    simp [this]
  · rw [describe_eq]
    rcases h with h | h <;> simp [MockEC2.records, h]

/-- Witness for C12: `registryTwo` has no record named `other`, and the fresh
registry is never-initialised. -/
theorem not_found_is_never_an_error_witness :
    DescribeLaunchTemplateVersions registryTwo { LaunchTemplateName := some "other" } =
        .ok registryTwo {} ∧
      DescribeLaunchTemplates fresh {} = .ok fresh {} := by
  constructor
  · apply (not_found_is_never_an_error registryTwo).2.2.2.1
    intro id info hrec
    have hmem := (record_eq_some_iff _ _ _).mp hrec
    have hall : ∀ e ∈ mapTwo.entries, StringValue e.2.name ≠ "other" := by decide
    exact hall _ hmem
  · exact (not_found_is_never_an_error fresh).2.2.2.2 {} (Or.inl rfl)

/-- C19. The describe operations are read-only. Both return the registry
exactly as they found it (map, counter and tag log; a never-initialised map
stays so). Their answers depend on the visiting order of the map only up to
order: two registries holding the same records in a different order give
answers that are permutations of each other. -/
theorem describes_are_read_only (m : MockEC2) (r : DescribeLaunchTemplatesInput)
    (q : DescribeLaunchTemplateVersionsInput) :
    (DescribeLaunchTemplates m r).registry = some m ∧
    (DescribeLaunchTemplateVersions m q).registry = some m ∧
    ∀ m2 : MockEC2, m.records.Perm m2.records →
      (∃ o o2, DescribeLaunchTemplates m r = .ok m o ∧
        DescribeLaunchTemplates m2 r = .ok m2 o2 ∧
        o.LaunchTemplates.Perm o2.LaunchTemplates) ∧
      (∃ o o2, DescribeLaunchTemplateVersions m q = .ok m o ∧
        DescribeLaunchTemplateVersions m2 q = .ok m2 o2 ∧
        o.LaunchTemplateVersions.Perm o2.LaunchTemplateVersions) := by
  refine ⟨by rw [describe_eq]; rfl, by rw [describeVersions_eq]; rfl, fun m2 hp => ⟨?_, ?_⟩⟩
  · exact ⟨_, _, describe_eq m r, describe_eq m2 r, hp.map _⟩
  · exact ⟨_, _, describeVersions_eq m q, describeVersions_eq m2 q, (hp.filter _).map _⟩

/-- Witness for C19: `registryTwo` and `registryTwoSwapped` hold the same two
records in opposite orders. -/
theorem describes_are_read_only_witness :
    ∃ o o2, DescribeLaunchTemplates registryTwo {} = .ok registryTwo o ∧
      DescribeLaunchTemplates registryTwoSwapped {} = .ok registryTwoSwapped o2 ∧
      o.LaunchTemplates.Perm o2.LaunchTemplates :=
  ((describes_are_read_only registryTwo {} {}).2.2 registryTwoSwapped
    (List.Perm.swap _ _ _)).1

/-! ## Numbering, the Tag Binder and immutability -/

theorem run_counter (calls : List Call) :
    ∀ m m1 : MockEC2, run m calls = some m1 →
      m1.launchTemplateNumber = m.launchTemplateNumber + (calls.filter Call.isCreate).length := by
  induction calls with
  | nil =>
    intro m m1 h
    simp only [run, Option.some.injEq] at h
    subst h
    rfl
  | cons c cs ih =>
    intro m m1 h
    simp only [run] at h
    cases hs : step m c with
    | none => rw [hs] at h; cases h
    | some m2 =>
      rw [hs] at h
      have h2 := ih m2 m1 h
      cases c with
      | create r =>
        have := (step_create m r m2 hs).1
        simp only [List.filter_cons, Call.isCreate, ↓reduceIte, List.length_cons]
        omega
      | describe r =>
        rw [step_describe] at hs; cases hs
        simpa [List.filter_cons, Call.isCreate] using h2
      | describeVersions r =>
        rw [step_describeVersions] at hs; cases hs
        simpa [List.filter_cons, Call.isCreate] using h2
      | delete r =>
        obtain ⟨m3, h3, hn, _⟩ := step_delete m r
        rw [h3] at hs; cases hs
        simp only [List.filter_cons, Call.isCreate]
        simp only [Bool.false_eq_true, ↓reduceIte]
        omega

/-- C13. Identifier format and numbering. After any sequence of calls on a
fresh registry, a create call that returns without error has stored its record
under `lt-` followed by the decimal digits of its rank among the create calls
(the creates before it, plus one). In the scenario of the specification the
record of `web` is stored under `lt-1` and describe-versions returns the one
entry with that identifier, the image, the instance type and default version
true. -/
theorem kth_create_is_stored_under_lt_k (pre : List Call) (m : MockEC2)
    (request : CreateLaunchTemplateInput) (m1 : MockEC2) (o : CreateLaunchTemplateOutput)
    (hpre : run fresh pre = some m) (hok : CreateLaunchTemplate m request = .ok m1 o) :
    (∃ resp, m1.record (launchTemplateId ((pre.filter Call.isCreate).length + 1)) =
      some { data := some resp, name := request.LaunchTemplateName }) ∧
    (launchTemplateId ((pre.filter Call.isCreate).length + 1)).data =
      "lt-".data ++ Nat.toDigits 10 ((pre.filter Call.isCreate).length + 1) ∧
    (∃ m2, CreateLaunchTemplate fresh requestWeb = .ok m2 {} ∧
      m2.record "lt-1" = some
        { data := some { ImageId := some "ami-1", InstanceType := some "t2.micro" }
          name := some "web" } ∧
      DescribeLaunchTemplateVersions m2 { LaunchTemplateName := some "web" } = .ok m2
        { LaunchTemplateVersions :=
            [{ DefaultVersion := some true
               LaunchTemplateId := some "lt-1"
               LaunchTemplateData := some
                 { ImageId := some "ami-1", InstanceType := some "t2.micro" }
               LaunchTemplateName := some "web" }] }) := by
  have hn := run_counter pre fresh m hpre
  have hn0 : m.launchTemplateNumber = (pre.filter Call.isCreate).length := by
    simpa [fresh] using hn
  obtain ⟨_, d, resp, _, _, hm⟩ := create_ok_inv m request m1 o hok
  refine ⟨⟨resp, ?_⟩, ?_, ⟨_, rfl, rfl, rfl⟩⟩
  · subst hm
    rw [← hn0]
    exact record_insert_self _ _ _ _ _
  · simp [launchTemplateId, String.data_append, Nat.repr, List.asString]
    rfl

/-- Witness for C13: the third create call of a sequence with a delete and a
describe in between is stored under `lt-3`. -/
theorem kth_create_is_stored_under_lt_k_witness :
    ∃ m m1, run fresh [.create requestWeb, .delete { LaunchTemplateName := some "web" },
        .create requestShared, .describe {}] = some m ∧
      CreateLaunchTemplate m requestA = .ok m1 {} ∧
      ∃ resp, m1.record "lt-3" = some { data := some resp, name := some "lt-A" } :=
  ⟨_, _, rfl, rfl,
    (kth_create_is_stored_under_lt_k
      [.create requestWeb, .delete { LaunchTemplateName := some "web" },
        .create requestShared, .describe {}] _ requestA _ {} rfl rfl).1⟩

/-- C15. Tag Binder protocol. A create call that returns without error has
called `addTags` exactly once, for the identifier under which the new record is
stored and with the tags that `tagSpecificationsToTags` extracts from the
request's tag specifications for the launch-template resource type; describe,
describe-versions and delete leave the log of `addTags` calls as it was. -/
theorem addTags_called_once_per_create (m : MockEC2) :
    (∀ request m1 o, CreateLaunchTemplate m request = .ok m1 o →
      m1.addTagsCalls = m.addTagsCalls ++
        [(launchTemplateId (m.launchTemplateNumber + 1),
          tagSpecificationsToTags request.TagSpecifications ResourceTypeLaunchTemplate)] ∧
      (m1.record (launchTemplateId (m.launchTemplateNumber + 1))).isSome = true) ∧
    (∀ r m1 o, DescribeLaunchTemplates m r = .ok m1 o → m1.addTagsCalls = m.addTagsCalls) ∧
    (∀ r m1 o, DescribeLaunchTemplateVersions m r = .ok m1 o →
      m1.addTagsCalls = m.addTagsCalls) ∧
    (∀ r m1 o, DeleteLaunchTemplate m r = .ok m1 o → m1.addTagsCalls = m.addTagsCalls) := by
  refine ⟨fun request m1 o h => ?_, fun r m1 o h => ?_, fun r m1 o h => ?_, fun r m1 o h => ?_⟩
  · obtain ⟨_, d, resp, _, _, hm⟩ := create_ok_inv m request m1 o h
    subst hm
    exact ⟨rfl, by rw [record_insert_self]; rfl⟩
  · rw [describe_eq] at h
    injection h with hm _
    rw [← hm]
  · rw [describeVersions_eq] at h
    injection h with hm _
    rw [← hm]
  · obtain ⟨m2, h2, _, ht, _⟩ := delete_record m r
    rw [h2] at h
    injection h with hm _
    rw [← hm, ht]

/-- Witness for C15: `requestA` carries one launch-template tag specification
with the tag `owner = kops`; it is bound to `lt-1`. -/
theorem addTags_called_once_per_create_witness :
    ∃ m1, CreateLaunchTemplate fresh requestA = .ok m1 {} ∧
      m1.addTagsCalls = [("lt-1", [{ Key := some "owner", Value := some "kops" }])] :=
  ⟨_, rfl, ((addTags_called_once_per_create fresh).1 requestA _ {} rfl).1⟩

theorem step_record_preserved (m : MockEC2) (c : Call) (m1 : MockEC2)
    (h : step m c = some m1) (id : String) (a b : launchTemplateInfo)
    (ha : m.record id = some a) (hb : m1.record id = some b) : a = b := by
  cases c with
  | create r =>
    simp only [step] at h
    rcases create_cases m r with ⟨_, h1⟩ | ⟨_, _, h1⟩ | ⟨hfree, d, resp, _, _, h1⟩
    · rw [h1] at h
      simp only [Result.registry, Option.some.injEq] at h
      subst h
      have : m.record id = some b := by
        simpa [MockEC2.record, ensureMap_lookup] using hb
      rw [ha] at this
      exact Option.some.inj this
    · rw [h1] at h; simp [Result.registry] at h
    · rw [h1] at h
      simp only [Result.registry, Option.some.injEq] at h
      subst h
      have hne : id ≠ launchTemplateId (m.launchTemplateNumber + 1) := by
        intro heq
        rw [heq, hfree] at ha
        cases ha
      rw [record_insert_ne _ _ _ _ _ _ hne, ha] at hb
      exact Option.some.inj hb
  | describe r =>
    rw [step_describe] at h; cases h
    rw [ha] at hb; exact Option.some.inj hb
  | describeVersions r =>
    rw [step_describeVersions] at h; cases h
    rw [ha] at hb; exact Option.some.inj hb
  | delete r =>
    obtain ⟨m3, h3, _, hrec⟩ := step_delete m r
    rw [h3] at h; cases h
    rw [hrec id, ha] at hb
    simp only [Option.filter] at hb
    split at hb
    · exact Option.some.inj hb
    · cases hb

/-- C16. Records are immutable once stored. For each of the four operations,
an identifier that has a record before and after the call has the same record
(same name, same data). A create call that returns without error stores a
record under an identifier that had none, keeps the record of every other
identifier, and so has one record more. -/
theorem records_are_immutable (m : MockEC2) :
    (∀ c m1, step m c = some m1 →
      ∀ id a b, m.record id = some a → m1.record id = some b → a = b) ∧
    (∀ request m1 o, CreateLaunchTemplate m request = .ok m1 o →
      m.record (launchTemplateId (m.launchTemplateNumber + 1)) = none ∧
      (m1.record (launchTemplateId (m.launchTemplateNumber + 1))).isSome = true ∧
      (∀ id, id ≠ launchTemplateId (m.launchTemplateNumber + 1) →
        m1.record id = m.record id) ∧
      m1.records.length = m.records.length + 1) := by
  refine ⟨fun c m1 h id a b ha hb => step_record_preserved m c m1 h id a b ha hb,
    fun request m1 o h => ?_⟩
  obtain ⟨hfree, d, resp, _, _, hm⟩ := create_ok_inv m request m1 o h
  have hnot : launchTemplateId (m.launchTemplateNumber + 1) ∉ m.ensureMap := by
    rw [← AList.lookup_eq_none, ensureMap_lookup]; exact hfree
  subst hm
  refine ⟨hfree, by rw [record_insert_self]; rfl, fun id hne => record_insert_ne _ _ _ _ _ _ hne,
    ?_⟩
  simp only [MockEC2.records, AList.insert_entries_of_neg hnot, List.length_cons]
  unfold MockEC2.ensureMap
  cases m.LaunchTemplates <;> rfl

/-- Witness for C16: a create on `registryTwo` adds `lt-3` and keeps `lt-1`; a
delete of `web` keeps the record under `lt-2` as it was. -/
theorem records_are_immutable_witness :
    (∃ m1, CreateLaunchTemplate registryTwo requestA = .ok m1 {} ∧
      registryTwo.record "lt-3" = none ∧ (m1.record "lt-3").isSome = true ∧
      m1.record "lt-1" = registryTwo.record "lt-1" ∧
      m1.records.length = 3) ∧
    (∃ m1, step registryTwo (.delete { LaunchTemplateName := some "web" }) = some m1 ∧
      ∀ b, m1.record "lt-2" = some b → { data := none, name := none } = b) := by
  constructor
  · obtain ⟨h1, h2, h3, h4⟩ := (records_are_immutable registryTwo).2 requestA _ {} rfl
    exact ⟨_, rfl, h1, h2, h3 "lt-1" (by decide), h4⟩
  · exact ⟨_, rfl, fun b hb => (records_are_immutable registryTwo).1
      (.delete { LaunchTemplateName := some "web" }) _ rfl "lt-2" _ b (by decide) hb⟩

/-! ## Name matching -/

theorem nameMatches_iff_specNameMatches (recordName requestName : Option String) :
    nameMatches recordName requestName = true ↔ specNameMatches recordName requestName := by
  unfold nameMatches specNameMatches
  simp only [decide_eq_true_eq]
  cases requestName with
  | none =>
    cases recordName with
    | none => simp [StringValue]
    | some s => simp [StringValue]
  | some t =>
    by_cases ht : t = ""
    · subst ht
      cases recordName with
      | none => simp [StringValue]
      | some s => simp [StringValue]
    · cases recordName with
      | none =>
        simp only [StringValue, reduceCtorEq, Option.some.injEq, ht, or_self, ↓reduceIte,
          iff_false]
        exact fun h => ht h.symm
      | some s => simp [StringValue, ht]

/-- C17. Name matching is exact string equality, an absent name counting as
the empty name. A record has a version in the answer of describe-versions, and
is removed by delete, exactly when its name matches the request name in the
words of the specification: an absent or empty request name matches the
records with an absent or empty name, a non-empty request name matches the
records with that same name. A prefix or a name in another case does not
match. -/
theorem name_matching_is_exact (m : MockEC2) (n : Option String) :
    (∃ o, DescribeLaunchTemplateVersions m { LaunchTemplateName := n } = .ok m o ∧
      ∀ id, (∃ v ∈ o.LaunchTemplateVersions, v.LaunchTemplateId = some id) ↔
        ∃ info, m.record id = some info ∧ specNameMatches info.name n) ∧
    (∃ m1, DeleteLaunchTemplate m { LaunchTemplateName := n } = .ok m1 {} ∧
      ∀ id info, m.record id = some info →
        (m1.record id = none ↔ specNameMatches info.name n) ∧
        (m1.record id = some info ↔ ¬ specNameMatches info.name n)) ∧
    nameMatches (some "web") (some "we") = false ∧
    nameMatches (some "web") (some "Web") = false ∧
    nameMatches (some "web") (some "web") = true ∧
    nameMatches none (some "") = true ∧
    nameMatches (some "") none = true := by
  refine ⟨⟨_, describeVersions_eq m _, fun id => ?_⟩, ?_, by decide, by decide, by decide,
    by decide, by decide⟩
  · simp only [List.mem_map, List.mem_filter]
    constructor
    · rintro ⟨v, ⟨⟨id1, info⟩, ⟨he, hn⟩, rfl⟩, hid⟩
      simp only [Option.some.injEq] at hid
      subst hid
      exact ⟨info, (record_eq_some_iff m id1 info).mpr he,
        (nameMatches_iff_specNameMatches _ _).mp hn⟩
    · rintro ⟨info, hrec, hn⟩
      exact ⟨_, ⟨⟨id, info⟩, ⟨(record_eq_some_iff m id info).mp hrec,
        (nameMatches_iff_specNameMatches _ _).mpr hn⟩, rfl⟩, rfl⟩
  · obtain ⟨m1, h1, _, _, hr⟩ := delete_record m { LaunchTemplateName := n }
    refine ⟨m1, h1, fun id info hrec => ?_⟩
    rw [hr id, hrec, ← nameMatches_iff_specNameMatches]
    simp only [Option.filter]
    by_cases hb : nameMatches info.name n = true
    · simp [hb]
    · simp [hb]

/-- Witness for C17: deleting the empty name from `registryTwo` removes the
record without a name under `lt-2` and keeps `web` under `lt-1`. -/
theorem name_matching_is_exact_witness :
    ∃ m1, DeleteLaunchTemplate registryTwo { LaunchTemplateName := some "" } = .ok m1 {} ∧
      m1.record "lt-2" = none ∧
      m1.record "lt-1" = some { data := some { ImageId := some "ami-1" }, name := some "web" } := by
  obtain ⟨m1, h1, hrec⟩ := (name_matching_is_exact registryTwo (some "")).2.1
  refine ⟨m1, h1, ?_, ?_⟩
  · exact (hrec "lt-2" { data := none, name := none } (by decide)).1.mpr
      (by unfold specNameMatches; simp)
  · exact (hrec "lt-1" { data := some { ImageId := some "ami-1" }, name := some "web" }
      (by decide)).2.mpr (by unfold specNameMatches; simp)

/-! ## Lists of the payload and the two tag sinks -/

/-- C18. List translation preserves length and order. After a create call that
returns without error, the stored `BlockDeviceMappings`, `NetworkInterfaces`
and `TagSpecifications` have the lengths of the request lists, the entry at
each position carries the fields of the request entry at that position, and a
block device mapping has an `Ebs` block exactly when the request entry has
one, with its seven fields. -/
theorem list_translation_preserves_length_and_order (m : MockEC2)
    (request : CreateLaunchTemplateInput) (m1 : MockEC2) (o : CreateLaunchTemplateOutput)
    (h : CreateLaunchTemplate m request = .ok m1 o) :
    ∃ d resp, request.LaunchTemplateData = some d ∧
      m1.record (launchTemplateId (m.launchTemplateNumber + 1)) =
        some { data := some resp, name := request.LaunchTemplateName } ∧
      resp.BlockDeviceMappings.length = d.BlockDeviceMappings.length ∧
      resp.NetworkInterfaces.length = d.NetworkInterfaces.length ∧
      resp.TagSpecifications.length = d.TagSpecifications.length ∧
      (∀ (i : Nat) (x : LaunchTemplateBlockDeviceMappingRequest),
        d.BlockDeviceMappings[i]? = some x →
        ∃ y : LaunchTemplateBlockDeviceMapping, resp.BlockDeviceMappings[i]? = some y ∧
          y.DeviceName = x.DeviceName ∧ y.NoDevice = x.NoDevice ∧
          y.VirtualName = x.VirtualName ∧
          (x.Ebs = none → y.Ebs = none) ∧
          (∀ e : LaunchTemplateEbsBlockDeviceRequest, x.Ebs = some e →
            ∃ f : LaunchTemplateEbsBlockDevice, y.Ebs = some f ∧
            f.DeleteOnTermination = e.DeleteOnTermination ∧ f.Encrypted = e.Encrypted ∧
            f.Iops = e.Iops ∧ f.KmsKeyId = e.KmsKeyId ∧ f.SnapshotId = e.SnapshotId ∧
            f.VolumeSize = e.VolumeSize ∧ f.VolumeType = e.VolumeType)) ∧
      (∀ (i : Nat) (x : LaunchTemplateInstanceNetworkInterfaceSpecificationRequest),
        d.NetworkInterfaces[i]? = some x →
        ∃ y : LaunchTemplateInstanceNetworkInterfaceSpecification,
          resp.NetworkInterfaces[i]? = some y ∧
          y.AssociatePublicIpAddress = x.AssociatePublicIpAddress ∧
          y.DeleteOnTermination = x.DeleteOnTermination ∧
          y.Description = x.Description ∧ y.DeviceIndex = x.DeviceIndex ∧
          y.Groups = x.Groups ∧ y.Ipv6AddressCount = x.Ipv6AddressCount ∧
          y.NetworkInterfaceId = x.NetworkInterfaceId ∧
          y.PrivateIpAddress = x.PrivateIpAddress ∧
          y.PrivateIpAddresses = x.PrivateIpAddresses ∧
          y.SecondaryPrivateIpAddressCount = x.SecondaryPrivateIpAddressCount ∧
          y.SubnetId = x.SubnetId) ∧
      (∀ (i : Nat) (x : LaunchTemplateTagSpecificationRequest),
        d.TagSpecifications[i]? = some x →
        ∃ y : LaunchTemplateTagSpecification, resp.TagSpecifications[i]? = some y ∧
          y.ResourceType = x.ResourceType ∧ y.Tags = x.Tags) := by
  obtain ⟨_, d, resp, hd, hb, hm⟩ := create_ok_inv m request m1 o h
  have ht := buildResponseData_eq_translateSpec d resp hb
  refine ⟨d, resp, hd, ?_, ?_⟩
  · subst hm; exact record_insert_self _ _ _ _ _
  · subst ht
    refine ⟨by simp [translateSpec], by simp [translateSpec], by simp [translateSpec],
      ?_, ?_, ?_⟩
    · intro i x hx
      refine ⟨_, by simp only [translateSpec, List.getElem?_map, hx]; rfl, rfl, rfl, rfl, ?_, ?_⟩
      · intro h0; simp [h0]
      · intro e h0; simp [h0]
    · intro i x hx
      exact ⟨_, by simp only [translateSpec, List.getElem?_map, hx]; rfl,
        rfl, rfl, rfl, rfl, rfl, rfl, rfl, rfl, rfl, rfl, rfl⟩
    · intro i x hx
      exact ⟨_, by simp only [translateSpec, List.getElem?_map, hx]; rfl, rfl, rfl⟩

/-- Witness for C18: `requestA` has two block device mappings, the first with
an `Ebs` block and the second without. -/
theorem list_translation_preserves_length_and_order_witness :
    ∃ m1 resp, CreateLaunchTemplate fresh requestA = .ok m1 {} ∧
      m1.record "lt-1" = some { data := some resp, name := some "lt-A" } ∧
      resp.BlockDeviceMappings.length = 2 ∧
      resp.NetworkInterfaces.length = 1 ∧
      resp.TagSpecifications.length = 1 := by
  obtain ⟨d, resp, hd, hrec, h1, h2, h3, -⟩ :=
    list_translation_preserves_length_and_order fresh requestA _ {} rfl
  have hd1 : some d = requestA.LaunchTemplateData := hd.symm
  simp only [requestA, Option.some.injEq] at hd1
  subst hd1
  exact ⟨_, resp, rfl, hrec, h1, h2, h3⟩

/-- C14 (counterexample). The tags bound to the new identifier are not always
the launch-template-typed tags among the tag specifications stored in the
payload: for `requestA` on a fresh registry the tag `owner = kops` is bound to
`lt-1`, while the stored payload has one specification, of type `instance`. -/
theorem tag_sinks_same_source_counterexample :
    ¬ ∀ (m : MockEC2) (request : CreateLaunchTemplateInput) (m1 : MockEC2)
        (o : CreateLaunchTemplateOutput) (resp : ResponseLaunchTemplateData),
      CreateLaunchTemplate m request = .ok m1 o →
      m1.record (launchTemplateId (m.launchTemplateNumber + 1)) =
        some { data := some resp, name := request.LaunchTemplateName } →
      m1.addTagsCalls = m.addTagsCalls ++
        [(launchTemplateId (m.launchTemplateNumber + 1),
          payloadTagsOfType resp.TagSpecifications ResourceTypeLaunchTemplate)] := by
  intro hall
  have h := hall fresh requestA _ {} _ rfl rfl
  revert h
  decide

/-- C14 (amended). After a create call that returns without error, the tag
specifications stored in the payload are the entry by entry copy of the list
inside the request's `LaunchTemplateData`, and the tags bound to the new
identifier are the launch-template-typed tags of the top-level tag
specification list of the request: the two sinks are fed from two separate
fields of the request. -/
theorem tag_sinks_have_separate_sources (m : MockEC2)
    (request : CreateLaunchTemplateInput) (m1 : MockEC2) (o : CreateLaunchTemplateOutput)
    (h : CreateLaunchTemplate m request = .ok m1 o) :
    ∃ d resp, request.LaunchTemplateData = some d ∧
      m1.record (launchTemplateId (m.launchTemplateNumber + 1)) =
        some { data := some resp, name := request.LaunchTemplateName } ∧
      resp.TagSpecifications = d.TagSpecifications.map
        (fun x => { ResourceType := x.ResourceType, Tags := x.Tags }) ∧
      payloadTagsOfType resp.TagSpecifications ResourceTypeLaunchTemplate =
        (d.TagSpecifications.filter
          (fun x => StringValue x.ResourceType = ResourceTypeLaunchTemplate)).flatMap
          (fun x => x.Tags) ∧
      m1.addTagsCalls = m.addTagsCalls ++
        [(launchTemplateId (m.launchTemplateNumber + 1),
          tagSpecificationsToTags request.TagSpecifications ResourceTypeLaunchTemplate)] := by
  obtain ⟨_, d, resp, hd, hb, hm⟩ := create_ok_inv m request m1 o h
  have ht := buildResponseData_eq_translateSpec d resp hb
  have hts : resp.TagSpecifications = d.TagSpecifications.map
      (fun x => { ResourceType := x.ResourceType, Tags := x.Tags }) := by
    subst ht; rfl
  refine ⟨d, resp, hd, ?_, hts, ?_, ?_⟩
  · subst hm; exact record_insert_self _ _ _ _ _
  · rw [hts]
    unfold payloadTagsOfType
    generalize d.TagSpecifications = l
    induction l with
    | nil => rfl
    | cons x xs ih =>
      by_cases hx : StringValue x.ResourceType = ResourceTypeLaunchTemplate
      · simp [List.filter_cons, hx, List.flatMap_cons, ih]
      · simp [List.filter_cons, hx, ih]
  · subst hm; rfl

/-- Witness for C14 (amended): for `requestA` the stored specification is the
`instance` one of the request data, and the bound tag is `owner = kops` of the
top-level list. -/
theorem tag_sinks_have_separate_sources_witness :
    ∃ m1 resp, CreateLaunchTemplate fresh requestA = .ok m1 {} ∧
      m1.record "lt-1" = some { data := some resp, name := some "lt-A" } ∧
      resp.TagSpecifications =
        [{ ResourceType := some "instance", Tags := [⟨some "k", some "v"⟩] }] ∧
      m1.addTagsCalls = [("lt-1", [{ Key := some "owner", Value := some "kops" }])] := by
  obtain ⟨d, resp, hd, hrec, hts, -, hcalls⟩ :=
    tag_sinks_have_separate_sources fresh requestA _ {} rfl
  have hd1 : some d = requestA.LaunchTemplateData := hd.symm
  simp only [requestA, Option.some.injEq] at hd1
  subst hd1
  exact ⟨_, resp, rfl, hrec, hts, hcalls⟩

/-! ## Identifier uniqueness over whole call sequences -/

theorem create_panic_inv (m : MockEC2) (request : CreateLaunchTemplateInput)
    (h : CreateLaunchTemplate m request = .panic) :
    m.record (launchTemplateId (m.launchTemplateNumber + 1)) = none := by
  rcases create_cases m request with ⟨_, h1⟩ | ⟨hr, _, _⟩ | ⟨_, d, resp, _, _, h1⟩
  · rw [h1] at h; cases h
  · exact hr
  · rw [h1] at h; cases h

theorem registryAfterPanic_spec (m : MockEC2) (request : CreateLaunchTemplateInput) :
    (registryAfterPanic m request).launchTemplateNumber = m.launchTemplateNumber + 1 ∧
    (registryAfterPanic m request).addTagsCalls = m.addTagsCalls ∧
    ∀ id, ((registryAfterPanic m request).record id).isSome = true →
      (m.record id).isSome = true ∨ id = launchTemplateId (m.launchTemplateNumber + 1) := by
  unfold registryAfterPanic
  cases request.LaunchTemplateData with
  | none =>
    refine ⟨rfl, rfl, fun id hid => Or.inl ?_⟩
    simpa [MockEC2.record, ensureMap_lookup] using hid
  | some d =>
    refine ⟨rfl, rfl, fun id hid => ?_⟩
    by_cases hne : id = launchTemplateId (m.launchTemplateNumber + 1)
    · exact Or.inr hne
    · left
      simp only at hid
      rw [record_insert_ne _ _ _ _ _ _ hne] at hid
      exact hid

/-- What one call, with a recovered panic, does to the counter, the stored
identifiers and the `addTags` log. -/
theorem stepRecovered_spec (m : MockEC2) (c : Call) :
    m.launchTemplateNumber ≤ (stepRecovered m c).launchTemplateNumber ∧
    (∀ id, ((stepRecovered m c).record id).isSome = true →
      (m.record id).isSome = true ∨
        (id = launchTemplateId (m.launchTemplateNumber + 1) ∧
          (stepRecovered m c).launchTemplateNumber = m.launchTemplateNumber + 1)) ∧
    (((stepRecovered m c).addTagsCalls = m.addTagsCalls ∧ returnedCreate m c = 0) ∨
      ((∃ tags, (stepRecovered m c).addTagsCalls =
          m.addTagsCalls ++ [(launchTemplateId (m.launchTemplateNumber + 1), tags)]) ∧
        (stepRecovered m c).launchTemplateNumber = m.launchTemplateNumber + 1 ∧
        returnedCreate m c = 1)) := by
  cases c with
  | create r =>
    simp only [stepRecovered, returnedCreate]
    rcases create_cases m r with ⟨_, h1⟩ | ⟨_, _, h1⟩ | ⟨_, d, resp, _, _, h1⟩
    · rw [h1]
      refine ⟨Nat.le_succ _, fun id hid => Or.inl ?_, Or.inl ⟨rfl, rfl⟩⟩
      simpa [MockEC2.record, ensureMap_lookup] using hid
    · rw [h1]
      obtain ⟨hn, ht, hrec⟩ := registryAfterPanic_spec m r
      refine ⟨by simp only; omega, fun id hid => ?_, Or.inl ⟨ht, rfl⟩⟩
      rcases hrec id hid with h2 | h2
      · exact Or.inl h2
      · exact Or.inr ⟨h2, hn⟩
    · rw [h1]
      refine ⟨Nat.le_succ _, fun id hid => ?_, Or.inr ⟨⟨_, rfl⟩, rfl, rfl⟩⟩
      by_cases hne : id = launchTemplateId (m.launchTemplateNumber + 1)
      · exact Or.inr ⟨hne, rfl⟩
      · left
        simp only at hid
        rw [record_insert_ne _ _ _ _ _ _ hne] at hid
        exact hid
  | describe r =>
    simp only [stepRecovered, describe_eq, Result.registry]
    exact ⟨le_refl _, fun id hid => Or.inl hid, Or.inl ⟨trivial, rfl⟩⟩
  | describeVersions r =>
    simp only [stepRecovered, describeVersions_eq, Result.registry]
    exact ⟨le_refl _, fun id hid => Or.inl hid, Or.inl ⟨trivial, rfl⟩⟩
  | delete r =>
    obtain ⟨m1, h1, hn, ht, hrec⟩ := delete_record m r
    simp only [stepRecovered, h1, Result.registry]
    refine ⟨by omega, fun id hid => Or.inl ?_, Or.inl ⟨ht, rfl⟩⟩
    rw [hrec id] at hid
    cases hm : m.record id with
    | none => rw [hm] at hid; simp at hid
    | some i => rfl

theorem stepRecovered_wellNumbered (m : MockEC2) (c : Call) (h : WellNumbered m) :
    WellNumbered (stepRecovered m c) := by
  obtain ⟨hle, hrec, hlog⟩ := stepRecovered_spec m c
  obtain ⟨h1, h2, h3⟩ := h
  refine ⟨fun id hid => ?_, ?_, ?_⟩
  · rcases hrec id hid with h4 | ⟨h4, h5⟩
    · obtain ⟨k, hk1, hk2, hk3⟩ := h1 id h4
      exact ⟨k, hk1, by omega, hk3⟩
    · exact ⟨_, by omega, by omega, h4⟩
  · rcases hlog with ⟨h4, _⟩ | ⟨⟨tags, h4⟩, h5, _⟩
    · rw [h4]
      intro id hid
      obtain ⟨k, hk1, hk2, hk3⟩ := h2 id hid
      exact ⟨k, hk1, by omega, hk3⟩
    · rw [h4]
      intro id hid
      simp only [List.map_append, List.map_cons, List.map_nil, List.mem_append,
        List.mem_singleton] at hid
      rcases hid with hid | hid
      · obtain ⟨k, hk1, hk2, hk3⟩ := h2 id hid
        exact ⟨k, hk1, by omega, hk3⟩
      · exact ⟨_, by omega, by omega, hid⟩
  · rcases hlog with ⟨h4, _⟩ | ⟨⟨tags, h4⟩, h5, _⟩
    · rw [h4]; exact h3
    · rw [h4]
      simp only [List.map_append, List.map_cons, List.map_nil]
      refine List.Nodup.append h3 (List.nodup_singleton _) ?_
      intro id hid hid2
      rw [List.mem_singleton] at hid2
      obtain ⟨k, _, hk2, hk3⟩ := h2 id hid
      rw [hid2] at hk3
      have := launchTemplateId_injective hk3
      omega

theorem fresh_wellNumbered : WellNumbered fresh := by
  refine ⟨fun id hid => ?_, fun id hid => ?_, ?_⟩
  · simp [MockEC2.record, fresh] at hid
  · simp [fresh] at hid
  · simp [fresh]

theorem runRecovered_spec (calls : List Call) :
    ∀ m : MockEC2, WellNumbered m →
      WellNumbered (runRecovered m calls) ∧
      m.launchTemplateNumber ≤ (runRecovered m calls).launchTemplateNumber ∧
      (runRecovered m calls).addTagsCalls.length =
        m.addTagsCalls.length + createsReturned m calls := by
  induction calls with
  | nil => intro m h; exact ⟨h, le_refl _, rfl⟩
  | cons c cs ih =>
    intro m h
    obtain ⟨h1, h2, h3⟩ := ih (stepRecovered m c) (stepRecovered_wellNumbered m c h)
    obtain ⟨hle, _, hlog⟩ := stepRecovered_spec m c
    refine ⟨h1, by simp only [runRecovered]; omega, ?_⟩
    simp only [runRecovered, createsReturned]
    rw [h3]
    rcases hlog with ⟨h4, h5⟩ | ⟨⟨tags, h4⟩, _, h5⟩
    · rw [h4, h5]; omega
    · rw [h4, h5, List.length_append, List.length_singleton]; omega

theorem runRecovered_append (a b : List Call) :
    ∀ m : MockEC2, runRecovered m (a ++ b) = runRecovered (runRecovered m a) b := by
  induction a with
  | nil => intro m; rfl
  | cons c cs ih => intro m; exact ih (stepRecovered m c)

/-- C2. Identifier uniqueness. Take any sequence of the four operations on a
fresh registry, a panicking create being recovered by the caller. The
identifiers for which its create calls bound tags are pairwise distinct, one
for each create call that returned without error. A further create call that
returns without error stores its record, and binds its tags, under one new
identifier; no record was stored under that identifier, and no tags were bound
to it, at any earlier point of the sequence, so the identifier of a record
that was deleted since is not given out again. -/
theorem created_identifiers_are_pairwise_distinct (calls : List Call) :
    ((runRecovered fresh calls).addTagsCalls.map Prod.fst).Nodup ∧
    (runRecovered fresh calls).addTagsCalls.length = createsReturned fresh calls ∧
    ∀ (request : CreateLaunchTemplateInput) (m1 : MockEC2) (o : CreateLaunchTemplateOutput),
      CreateLaunchTemplate (runRecovered fresh calls) request = .ok m1 o →
      ∃ id resp tags,
        m1.record id = some { data := some resp, name := request.LaunchTemplateName } ∧
        m1.addTagsCalls = (runRecovered fresh calls).addTagsCalls ++ [(id, tags)] ∧
        (∀ id1, (m1.record id1).isSome = true →
          ((runRecovered fresh calls).record id1).isSome = true ∨ id1 = id) ∧
        (m1.addTagsCalls.map Prod.fst).Nodup ∧
        ∀ earlier, earlier <+: calls →
          (runRecovered fresh earlier).record id = none ∧
          id ∉ (runRecovered fresh earlier).addTagsCalls.map Prod.fst := by
  obtain ⟨hw, _, hlen⟩ := runRecovered_spec calls fresh fresh_wellNumbered
  refine ⟨hw.2.2, by simpa [fresh] using hlen, fun request m1 o hok => ?_⟩
  have hstep : stepRecovered (runRecovered fresh calls) (.create request) = m1 := by
    simp only [stepRecovered, hok]
  have hw1 : WellNumbered m1 := by
    rw [← hstep]; exact stepRecovered_wellNumbered _ _ hw
  obtain ⟨_, d, resp, _, _, hm⟩ := create_ok_inv _ request m1 o hok
  refine ⟨launchTemplateId ((runRecovered fresh calls).launchTemplateNumber + 1), resp,
    tagSpecificationsToTags request.TagSpecifications ResourceTypeLaunchTemplate,
    ?_, ?_, ?_, hw1.2.2, ?_⟩
  · rw [hm]; exact record_insert_self _ _ _ _ _
  · rw [hm]
  · intro id1 hid1
    by_cases hne : id1 = launchTemplateId ((runRecovered fresh calls).launchTemplateNumber + 1)
    · exact Or.inr hne
    · left
      rw [hm, record_insert_ne _ _ _ _ _ _ hne] at hid1
      exact hid1
  · rintro earlier ⟨rest, rfl⟩
    obtain ⟨hwe, _, _⟩ := runRecovered_spec earlier fresh fresh_wellNumbered
    obtain ⟨_, hle, _⟩ := runRecovered_spec rest (runRecovered fresh earlier) hwe
    rw [← runRecovered_append] at hle
    constructor
    · cases hrec : (runRecovered fresh earlier).record (launchTemplateId
          ((runRecovered fresh (earlier ++ rest)).launchTemplateNumber + 1)) with
      | none => rfl
      | some i =>
        obtain ⟨k, _, hk, hid⟩ := hwe.1 _ (by rw [hrec]; rfl)
        have := launchTemplateId_injective hid
        omega
    · intro hmem
      obtain ⟨k, _, hk, hid⟩ := hwe.2.1 _ hmem
      have := launchTemplateId_injective hid
      omega

/-- Witness for C2: in `callsWithPanic` the first create binds `lt-1`, the
second panics on the absent `SpotOptions` after storing a half-built record
under `lt-2`, and the delete of `web` removes both records; the next create
stores and binds `lt-3`, not one of the two freed identifiers. -/
theorem created_identifiers_are_pairwise_distinct_witness :
    ∃ m1, CreateLaunchTemplate (runRecovered fresh callsWithPanic) requestShared = .ok m1 {} ∧
      (runRecovered fresh callsWithPanic).records = [] ∧
      createsReturned fresh callsWithPanic = 1 ∧
      m1.addTagsCalls.map Prod.fst = ["lt-1", "lt-3"] ∧
      ∃ id resp tags,
        m1.record id = some { data := some resp, name := some "shared" } ∧
        m1.addTagsCalls = [("lt-1", [])] ++ [(id, tags)] ∧
        ∀ earlier, earlier <+: callsWithPanic →
          (runRecovered fresh earlier).record id = none ∧
          id ∉ (runRecovered fresh earlier).addTagsCalls.map Prod.fst := by
  refine ⟨_, rfl, rfl, rfl, rfl, ?_⟩
  obtain ⟨id, resp, tags, h1, h2, -, -, h3⟩ :=
    (created_identifiers_are_pairwise_distinct callsWithPanic).2.2 requestShared _ {} rfl
  exact ⟨id, resp, tags, h1, h2, h3⟩

end mockec2
